import Mathlib

/-!
Verification of the CrInPy Lox interpreter (a Python port of the
"Crafting Interpreters" tree-walking interpreter) against its
natural-language specification.

The development is a shallow embedding of the Python sources:
  Scanner.py, TokenType.py, Token.py, Parser.py, Expr.py, Stmt.py,
  Environment.py, LoxCallable.py, Interpreter.py, Resolver.py, plox.py.

Modelling conventions:
  - Python `None` standing for the Lox value nil is `Value.nil`.
  - Lox numbers (Python floats) are modelled as rationals; every literal
    and arithmetic result exercised by a theorem below is a small dyadic
    rational on which Python double arithmetic is exact.
  - Mutable Python objects (Environment, LoxInstance) live in explicit
    heaps inside the interpreter state; a Python reference is an index.
  - A raised Python exception that the sources catch (ParseError,
    EvaluationError, ReturnUnwinder, NameError at documented places)
    becomes a value of an error type; an exception no source handler
    catches (NameError on an undefined global name of the Python program
    itself, TypeError from float(), AttributeError) is a `crash`.
  - Unbounded recursion/loops of the sources take a fuel argument;
    exhausted fuel is reported like an uncaught Python RecursionError.
    All concrete programs below run far inside their fuel.
-/

namespace CrInPy

/-- TokenType.py: the token-kind enumeration, modelled as an inductive.
    Note the source defines NO kind for `break`. -/
inductive TokenType where
  | LEFT_PAREN | RIGHT_PAREN | LEFT_BRACE | RIGHT_BRACE | COMMA | DOT
  | MINUS | PLUS | SEMICOLON | SLASH | STAR
  | BANG | BANG_EQUAL | EQUAL | EQUAL_EQUAL | GREATER | GREATER_EQUAL
  | LESS | LESS_EQUAL
  | IDENTIFIER | STRING | NUMBER
  | AND | CLASS | ELSE | FALSE | FUN | FOR | IF | NIL | OR | PRINT
  | RETURN | SUPER | THIS | TRUE | VAR | WHILE
  | EOF
deriving DecidableEq, Repr

/-- A token's `literal` attribute: Python None, a float (modelled as a
    rational) or a string. -/
inductive LitVal where
  | pynone
  | bool (b : Bool)
  | num (q : Rat)
  | str (s : String)
deriving DecidableEq, Repr

/-- Token.py: an immutable record of kind, lexeme, literal and line. -/
structure Token where
  type : TokenType
  lexeme : String
  literal : LitVal
  line : Nat
deriving DecidableEq, Repr

/-! ## Scanner.py -/

/-- Python `str.isspace` restricted to the ASCII whitespace the scanner can
    meet (`\n` is tested before `isspace` in scanToken). -/
def pyIsSpace (c : Char) : Bool :=
  c = ' ' || c = '\t' || c = '\r' || c = '\n' || c = '\x0b' || c = '\x0c'

/-- Python `str.isdigit` / `str.isdecimal` on ASCII. -/
def pyIsDecimal (c : Char) : Bool :=
  '0' ≤ c && c ≤ '9'

/-- Python `str.isidentifier` applied to one character (letter or underscore);
    ASCII model. -/
def pyIsIdentStart (c : Char) : Bool :=
  ('a' ≤ c && c ≤ 'z') || ('A' ≤ c && c ≤ 'Z') || c = '_'

/-- Python `str.isalnum` on ASCII. -/
def pyIsAlnum (c : Char) : Bool :=
  pyIsIdentStart c || pyIsDecimal c

/-- Scanner.keywords: the keyword table.  The source omits `break`. -/
def keywords : List (String × TokenType) :=
  [ ("and", .AND), ("class", .CLASS), ("else", .ELSE), ("false", .FALSE),
    ("for", .FOR), ("fun", .FUN), ("if", .IF), ("nil", .NIL),
    ("or", .OR), ("print", .PRINT), ("return", .RETURN), ("super", .SUPER),
    ("this", .THIS), ("true", .TRUE), ("var", .VAR), ("while", .WHILE) ]

def keywordLookup (s : String) : Option TokenType :=
  (keywords.find? (fun p => p.1 = s)).map (fun p => p.2)

/-- The Scanner object's mutable attributes. `lexReports` collects the
    `error_report(line, message, where)` calls. -/
structure ScanState where
  source : List Char
  sourceLen : Nat
  tokens : List Token
  start : Nat
  current : Nat
  line : Nat
  lastNewline : Nat
  lexReports : List (Nat × String × Option Nat)
deriving Repr

namespace Scanner

def sourceGet (st : ScanState) (i : Nat) : Char :=
  st.source.getD i '\x00'

def isAtEnd (st : ScanState) : Bool :=
  st.sourceLen ≤ st.current

def peek (st : ScanState) : Char :=
  if isAtEnd st then '\x00' else sourceGet st st.current

def peekNext (st : ScanState) : Char :=
  if st.sourceLen ≤ st.current + 1 then '\x00' else sourceGet st (st.current + 1)

/-- advance(): return current char, step the index. -/
def advance (st : ScanState) : Char × ScanState :=
  (sourceGet st st.current, { st with current := st.current + 1 })

/-- look_for(c): conditionally consume the next char. -/
def lookFor (st : ScanState) (c : Char) : Bool × ScanState :=
  if isAtEnd st then (false, st)
  else if sourceGet st st.current ≠ c then (false, st)
  else (true, { st with current := st.current + 1 })

/-- The source slice `source[a:b]`. -/
def slice (st : ScanState) (a b : Nat) : String :=
  String.mk ((st.source.drop a).take (b - a))

def addToken (st : ScanState) (ty : TokenType) (lit : LitVal) : ScanState :=
  { st with tokens :=
      st.tokens ++ [ { type := ty, lexeme := slice st st.start st.current,
                       literal := lit, line := st.line } ] }

def lexError (st : ScanState) (line : Nat) (msg : String) (whr : Option Nat) :
    ScanState :=
  { st with lexReports := st.lexReports ++ [(line, msg, whr)] }

/-- digits of a literal folded to a natural number. -/
def digitsToNat (cs : List Char) : Nat :=
  cs.foldl (fun a c => a * 10 + (c.toNat - 48)) 0

/-- Python `float(source[start:current])` for a lexeme of shape
    digits(.digits)?, modelled exactly as a rational (exact for every
    literal a theorem below touches). -/
def parseLoxNumber (cs : List Char) : Rat :=
  let intPart := cs.takeWhile (fun c => c ≠ '.')
  let fracPart := (cs.dropWhile (fun c => c ≠ '.')).drop 1
  (digitsToNat intPart : Rat) +
    (digitsToNat fracPart : Rat) / ((10 : Rat) ^ fracPart.length)

/-- `// comment`: consume to end of line, emit no token. -/
def skipComment : Nat → ScanState → ScanState
  | 0, st => st
  | fuel + 1, st =>
      if ¬ isAtEnd st ∧ peek st ≠ '\n' then
        skipComment fuel (advance st).2
      else st

/-- The scan loop of string_lit: consume to the closing quote. -/
def stringBody : Nat → ScanState → ScanState
  | 0, st => st
  | fuel + 1, st =>
      if ¬ isAtEnd st ∧ '"' ≠ peek st then
        let st := if peek st = '\n' then { st with line := st.line + 1 } else st
        stringBody fuel (advance st).2
      else st

/-- string_lit(): absorb a string literal, or report "Unterminated string". -/
def stringLit (fuel : Nat) (st : ScanState) : ScanState :=
  let startLine := st.line
  let startPos := st.current - st.lastNewline
  let st := stringBody fuel st
  if ¬ isAtEnd st then
    let st := (advance st).2
    let lit := slice st (st.start + 1) (st.current - 1)
    addToken st .STRING (.str lit)
  else
    lexError st startLine "Unterminated string" (some startPos)

def digitRun : Nat → ScanState → ScanState
  | 0, st => st
  | fuel + 1, st =>
      if pyIsDecimal (peek st) then digitRun fuel (advance st).2 else st

/-- number_lit(): digits, optional `.` digits; store the float value. -/
def numberLit (fuel : Nat) (st : ScanState) : ScanState :=
  let st := digitRun fuel st
  let st :=
    if peek st = '.' ∧ pyIsDecimal (peekNext st) then
      digitRun fuel (advance st).2
    else st
  addToken st .NUMBER (.num (parseLoxNumber ((st.source.drop st.start).take (st.current - st.start))))

def identRun : Nat → ScanState → ScanState
  | 0, st => st
  | fuel + 1, st =>
      if pyIsAlnum (peek st) ∨ peek st = '_' then identRun fuel (advance st).2
      else st

/-- identifier(): absorb a word; keywords get their kind, the rest are
    IDENTIFIER.  With no `break` entry in the table, `break` comes out as
    an IDENTIFIER token. -/
def identifier (fuel : Nat) (st : ScanState) : ScanState :=
  let st := identRun fuel st
  let text := slice st st.start st.current
  let ttype := match keywordLookup text with
    | some k => k
    | none => TokenType.IDENTIFIER
  addToken st ttype .pynone

/-- scanToken(): collect one lexeme starting at `start`. -/
def scanToken (fuel : Nat) (st : ScanState) : ScanState :=
  let (c, st) := advance st
  if c = '(' then addToken st .LEFT_PAREN .pynone
  else if c = ')' then addToken st .RIGHT_PAREN .pynone
  else if c = '{' then addToken st .LEFT_BRACE .pynone
  else if c = '}' then addToken st .RIGHT_BRACE .pynone
  else if c = ',' then addToken st .COMMA .pynone
  else if c = '.' then addToken st .DOT .pynone
  else if c = '-' then addToken st .MINUS .pynone
  else if c = '+' then addToken st .PLUS .pynone
  else if c = ';' then addToken st .SEMICOLON .pynone
  else if c = '*' then addToken st .STAR .pynone
  else if c = '!' then
    let (eq, st) := lookFor st '='
    addToken st (if eq then .BANG_EQUAL else .BANG) .pynone
  else if c = '=' then
    let (eq, st) := lookFor st '='
    addToken st (if eq then .EQUAL_EQUAL else .EQUAL) .pynone
  else if c = '<' then
    let (eq, st) := lookFor st '='
    addToken st (if eq then .LESS_EQUAL else .LESS) .pynone
  else if c = '>' then
    let (eq, st) := lookFor st '='
    addToken st (if eq then .GREATER_EQUAL else .GREATER) .pynone
  else if c = '/' then
    let (sl, st) := lookFor st '/'
    if sl then skipComment fuel st else addToken st .SLASH .pynone
  else if c = '\n' then
    { st with lastNewline := st.current, line := st.line + 1 }
  else if pyIsSpace c then st
  else if c = '"' then stringLit fuel st
  else if pyIsDecimal c then numberLit fuel st
  else if pyIsIdentStart c then identifier fuel st
  else lexError st st.line "Unexpected character" (some (st.current - st.lastNewline))

/-- The scanTokens loop: while not at end, set start and scan one token. -/
def scanLoop : Nat → ScanState → ScanState
  | 0, st => st
  | fuel + 1, st =>
      if isAtEnd st then st
      else scanLoop fuel (scanToken fuel { st with start := st.current })

/-- Scanner(source).scanTokens(): the full token list, ending in EOF. -/
def scanTokens (source : String) : ScanState :=
  let cs := source.toList
  let st0 : ScanState :=
    { source := cs, sourceLen := cs.length, tokens := [], start := 0,
      current := 0, line := 1, lastNewline := 0, lexReports := [] }
  let st := scanLoop (cs.length + 1) st0
  { st with tokens := st.tokens ++ [ { type := .EOF, lexeme := "", literal := .pynone, line := st.line } ] }

end Scanner

/-! ## Expr.py / Stmt.py

The AST variant families.  Every reference node (Variable, Assign, This,
Super) carries a parse-time integer `id` modelling the node's Python object
identity, which is the key of the interpreter's `locals` side table. -/

inductive Expr where
  | Assign (id : Nat) (name : Token) (value : Expr)
  | Binary (left : Expr) (operator : Token) (right : Expr)
  | Call (callee : Expr) (paren : Token) (arguments : List Expr)
  | Get (object : Expr) (name : Token)
  | Grouping (expression : Expr)
  | Literal (value : LitVal)
  | Logical (left : Expr) (operator : Token) (right : Expr)
  | Set (object : Expr) (name : Token) (value : Expr)
  | Super (id : Nat) (keyword : Token) (method : Token)
  | This (id : Nat) (keyword : Token)
  | Unary (operator : Token) (right : Expr)
  | Variable (id : Nat) (name : Token)
deriving Repr

mutual
/-- Stmt.Function's payload (name, params, body); also the element type of
    Stmt.Class's method list, as in the source. -/
inductive FunctionDecl where
  | mk (name : Token) (params : List Token) (body : List Stmt)
/-- Stmt.py's statement variants.  Stmt.py itself generates no `Break`
    class (the generator input lacks it); the constructor below models the
    class that Parser.break_stmt and Interpreter.visitBreak refer to. -/
inductive Stmt where
  | Block (statements : List Stmt)
  | Expression (expression : Expr)
  | Function (decl : FunctionDecl)
  | If (condition : Expr) (thenBranch : Stmt) (elseBranch : Option Stmt)
  | Print (expression : Expr)
  | Return (keyword : Token) (value : Option Expr)
  | Var (name : Token) (initializer : Option Expr)
  | While (condition : Expr) (body : Stmt)
  | Class (name : Token) (methods : List FunctionDecl) (superclass : Option Expr)
  | Break (t : Token)
end

def FunctionDecl.name : FunctionDecl → Token
  | .mk n _ _ => n

def FunctionDecl.params : FunctionDecl → List Token
  | .mk _ p _ => p

def FunctionDecl.body : FunctionDecl → List Stmt
  | .mk _ _ b => b

/-! ## plox.py error formatting -/

/-- plox.report: the line written to stderr (and HAD_ERROR set). -/
def reportFormat (line : Nat) (whr : String) (message : String) : String :=
  "Error in line " ++ toString line ++ " " ++ whr ++ ": " ++ message

/-- plox.parse_error: format a parser/resolver/interpreter report. -/
def parse_error (t : Token) (message : String) : String :=
  reportFormat t.line ("at " ++ (if t.type ≠ .EOF then t.lexeme else "end")) message

/-- plox.lex_error: format a scanner report. -/
def lex_error (line : Nat) (message : String) (whr : Option Nat) : String :=
  reportFormat line
    (match whr with
      | some w => if w ≠ 0 then "chr " ++ toString w else ""
      | none => "")
    message

/-! ## Parser.py -/

/-- The Parser object's mutable attributes, plus the reports its
    error_report callback (plox.parse_error) accumulated and the counter
    handing out reference-node identities. -/
structure PState where
  tokens : List Token
  current : Nat
  reports : List String
  nextId : Nat
deriving Repr

/-- Outcome of a parsing computation: a value, a raised Parser.ParseError
    (Python state at the raise survives), or an uncaught Python error. -/
inductive PRes (α : Type) where
  | ok (a : α) (s : PState)
  | perr (t : Token) (msg : String) (s : PState)
  | crash (msg : String)
deriving Repr

def ParserM (α : Type) := PState → PRes α

instance : Monad ParserM where
  pure a := fun s => .ok a s
  bind m f := fun s =>
    match m s with
    | .ok a s' => f a s'
    | .perr t msg s' => .perr t msg s'
    | .crash msg => .crash msg

namespace Parser

/-- Max_Args: the source reduces the book's 255 to 16 for testing. -/
def Max_Args : Nat := 16

def dummyToken : Token :=
  { type := .EOF, lexeme := "", literal := .pynone, line := 0 }

def peekTok (s : PState) : Token :=
  s.tokens.getD s.current dummyToken

def previousTok (s : PState) : Token :=
  s.tokens.getD (s.current - 1) dummyToken

def isAtEndB (s : PState) : Bool :=
  (peekTok s).type = .EOF

def checkB (s : PState) (ty : TokenType) : Bool :=
  if isAtEndB s then false else (peekTok s).type = ty

def advanceState (s : PState) : PState :=
  if ¬ isAtEndB s then { s with current := s.current + 1 } else s

def peekM : ParserM Token := fun s => .ok (peekTok s) s

def previousM : ParserM Token := fun s => .ok (previousTok s) s

def isAtEndM : ParserM Bool := fun s => .ok (isAtEndB s) s

def checkM (ty : TokenType) : ParserM Bool := fun s => .ok (checkB s ty) s

def advanceM : ParserM Token := fun s =>
  let s' := advanceState s
  .ok (previousTok s') s'

/-- match(*types): consume on the first type that checks. -/
def matchT (types : List TokenType) : ParserM Bool := fun s =>
  match types.find? (fun ty => checkB s ty) with
  | some _ => .ok true (advanceState s)
  | none => .ok false s

/-- error(): raise a Parser.ParseError. -/
def errorP {α : Type} (t : Token) (msg : String) : ParserM α :=
  fun s => .perr t msg s

/-- consume(): advance past the expected type or raise. -/
def consume (ty : TokenType) (msg : String) : ParserM Token := fun s =>
  if checkB s ty then
    let s' := advanceState s
    .ok (previousTok s') s'
  else .perr (peekTok s) msg s

/-- error_report, which plox wires to plox.parse_error. -/
def errorReport (t : Token) (msg : String) : ParserM Unit :=
  fun s => .ok () { s with reports := s.reports ++ [parse_error t msg] }

/-- a fresh reference-node identity. -/
def freshId : ParserM Nat :=
  fun s => .ok s.nextId { s with nextId := s.nextId + 1 }

/-- the `except Parser.ParseError` discipline. -/
def catchParseError {α : Type} (body : ParserM α)
    (handler : Token → String → ParserM α) : ParserM α := fun s =>
  match body s with
  | .perr t m s' => handler t m s'
  | r => r

/-- synchronize()'s skipping loop. -/
def syncLoop : Nat → ParserM Unit
  | 0 => fun _ => .crash "RecursionError"
  | fuel + 1 => do
      if (← isAtEndM) then pure ()
      else if (← previousM).type = .SEMICOLON then pure ()
      else
        let p ← peekM
        if p.type ∈ [TokenType.CLASS, .FUN, .VAR, .FOR, .IF, .WHILE, .PRINT, .RETURN] then
          pure ()
        else do
          let _ ← advanceM
          syncLoop fuel

/-- synchronize(): discard tokens to a plausible statement start. -/
def synchronize (fuel : Nat) : ParserM Unit := do
  let _ ← advanceM
  syncLoop fuel

/-- declarators = (CLASS, FUN, VAR). -/
def declarators : List TokenType := [.CLASS, .FUN, .VAR]

mutual

/-- declaration(): dispatch to class/fun/var or plain statement, catching
    ParseError with report-and-synchronize (appending None to results). -/
def declaration : Nat → Bool → ParserM (Option Stmt)
  | 0, _ => fun _ => .crash "RecursionError"
  | fuel + 1, in_loop =>
      catchParseError
        (do
          let p ← peekM
          if ¬ (p.type ∈ declarators) then
            some <$> statement fuel in_loop
          else if (← matchT [.CLASS]) then
            some <$> class_decl fuel
          else if (← matchT [.FUN]) then
            (fun d => some (Stmt.Function d)) <$> function fuel "function"
          else if (← matchT [.VAR]) then
            some <$> var_stmt fuel
          else
            fun _ => .crash "NotImplementedError")
        (fun t m => do
          errorReport t m
          synchronize fuel
          pure none)

  termination_by structural fuel => fuel
/-- statement(): the ordinary-statement dispatch.  After the WHILE check the
    source evaluates the bare name BREAK (`if self.match(BREAK)`), and
    TokenType.py defines no BREAK, so Python raises NameError here; the
    break/brace/expression branches below that line are unreachable from
    statement(). -/
def statement : Nat → Bool → ParserM Stmt
  | 0, _ => fun _ => .crash "RecursionError"
  | fuel + 1, in_loop => do
      if (← matchT [.FOR]) then for_stmt fuel in_loop
      else if (← matchT [.IF]) then if_stmt fuel in_loop
      else if (← matchT [.PRINT]) then print_stmt fuel
      else if (← matchT [.RETURN]) then return_stmt fuel
      else if (← matchT [.WHILE]) then while_stmt fuel in_loop
      else fun _ => .crash "NameError: name BREAK is not defined"

  termination_by structural fuel => fuel
/-- block(): declarations up to the closing brace. -/
def block : Nat → Bool → ParserM (List Stmt)
  | 0, _ => fun _ => .crash "RecursionError"
  | fuel + 1, in_loop => blockLoop fuel in_loop []

  termination_by structural fuel => fuel
def blockLoop : Nat → Bool → List Stmt → ParserM (List Stmt)
  | 0, _, _ => fun _ => .crash "RecursionError"
  | fuel + 1, in_loop, acc => do
      if ¬ (← checkM .RIGHT_BRACE) ∧ ¬ (← isAtEndM) then do
        let d ← declaration fuel in_loop
        -- results.append(self.declaration(...)); a None can only arrive
        -- together with a report, which stops run_lox before execution.
        blockLoop fuel in_loop (acc ++ (match d with | some st => [st] | none => []))
      else do
        let _ ← consume .RIGHT_BRACE "Expect '\x7d' after block."
        pure acc

  termination_by structural fuel => fuel
/-- class_decl(). -/
def class_decl : Nat → ParserM Stmt
  | 0 => fun _ => .crash "RecursionError"
  | fuel + 1 => do
      let name ← consume .IDENTIFIER "Expect class name."
      let superclass ←
        if (← matchT [.LESS]) then do
          let _ ← consume .IDENTIFIER "Expect superclass name."
          let id ← freshId
          pure (some (Expr.Variable id (← previousM)))
        else pure none
      let _ ← consume .LEFT_BRACE "Expect '\x7b' before class body."
      let methods ← classBodyLoop fuel []
      let _ ← consume .RIGHT_BRACE "Expect '\x7d' to close class declaration."
      pure (Stmt.Class name methods superclass)

  termination_by structural fuel => fuel
def classBodyLoop : Nat → List FunctionDecl → ParserM (List FunctionDecl)
  | 0, _ => fun _ => .crash "RecursionError"
  | fuel + 1, acc => do
      if ¬ (← isAtEndM) ∧ ¬ (← checkM .RIGHT_BRACE) then do
        let m ← function fuel "method"
        classBodyLoop fuel (acc ++ [m])
      else pure acc

  termination_by structural fuel => fuel
/-- function(expected): a function or method declaration. -/
def function : Nat → String → ParserM FunctionDecl
  | 0, _ => fun _ => .crash "RecursionError"
  | fuel + 1, expected => do
      let name ← consume .IDENTIFIER ("Expect " ++ expected ++ " name")
      let _ ← consume .LEFT_PAREN ("Expect '(' after " ++ expected ++ " name")
      let params ← paramsLoop fuel []
      let _ ← consume .RIGHT_PAREN "Expect ')' to close parameter list"
      let _ ← consume .LEFT_BRACE ("Expect block statement as " ++ expected ++ " body")
      let body ← block fuel false
      pure (FunctionDecl.mk name params body)

  termination_by structural fuel => fuel
def paramsLoop : Nat → List Token → ParserM (List Token)
  | 0, _ => fun _ => .crash "RecursionError"
  | fuel + 1, acc => do
      if ¬ (← checkM .RIGHT_PAREN) then do
        if acc.length > Max_Args then
          errorP (← peekM) ("Cannot have more than " ++ toString Max_Args ++ " parameters.")
        else do
          let p ← consume .IDENTIFIER "Expect parameter name"
          if ¬ (← matchT [.COMMA]) then pure (acc ++ [p])
          else paramsLoop fuel (acc ++ [p])
      else pure acc

  termination_by structural fuel => fuel
/-- var_stmt(). -/
def var_stmt : Nat → ParserM Stmt
  | 0 => fun _ => .crash "RecursionError"
  | fuel + 1 => do
      let name ← consume .IDENTIFIER "Expect variable name."
      let initializer ←
        if (← matchT [.EQUAL]) then some <$> expression fuel
        else pure none
      let _ ← consume .SEMICOLON "Expect ';' after variable declaration."
      pure (Stmt.Var name initializer)

/-- for_stmt(): de-sugars into while/blocks as in the source. -/
def for_stmt : Nat → Bool → ParserM Stmt
  | 0, _ => fun _ => .crash "RecursionError"
  | fuel + 1, _in_loop => do
      let _ ← consume .LEFT_PAREN "Expect '(' after 'for'"
      let init_Stmt ←
        if (← matchT [.SEMICOLON]) then pure none
        else if (← matchT [.VAR]) then some <$> var_stmt fuel
        else some <$> expr_stmt fuel
      let test_Expr ←
        if ¬ (← checkM .SEMICOLON) then expression fuel
        else pure (Expr.Literal (.bool true))
      let _ ← consume .SEMICOLON "expect ';' after loop condition"
      let post_Expr ←
        if ¬ (← checkM .RIGHT_PAREN) then some <$> expression fuel
        else pure none
      let _ ← consume .RIGHT_PAREN "expect ')' to close for(...)"
      let body_Stmt ← statement fuel true
      let loop_body :=
        match post_Expr with
        | some p => Stmt.Block [body_Stmt, Stmt.Expression p]
        | none => body_Stmt
      let loop_Stmt := Stmt.While test_Expr loop_body
      pure (match init_Stmt with
        | some i => Stmt.Block [i, loop_Stmt]
        | none => loop_Stmt)

  termination_by structural fuel => fuel
/-- if_stmt(). -/
def if_stmt : Nat → Bool → ParserM Stmt
  | 0, _ => fun _ => .crash "RecursionError"
  | fuel + 1, in_loop => do
      let _ ← consume .LEFT_PAREN "'(' required for if-condition"
      let condition ← expression fuel
      let _ ← consume .RIGHT_PAREN "')' expected after if-condition"
      let then_clause ← statement fuel in_loop
      let else_clause ←
        if (← matchT [.ELSE]) then some <$> statement fuel in_loop
        else pure none
      pure (Stmt.If condition then_clause else_clause)

  termination_by structural fuel => fuel
/-- print_stmt(). -/
def print_stmt : Nat → ParserM Stmt
  | 0 => fun _ => .crash "RecursionError"
  | fuel + 1 => do
      let expr ← expression fuel
      let _ ← consume .SEMICOLON "Expect ';' after value."
      pure (Stmt.Print expr)

/-- return_stmt(): the value of a bare `return;` is Python None, not a
    Literal. -/
def return_stmt : Nat → ParserM Stmt
  | 0 => fun _ => .crash "RecursionError"
  | fuel + 1 => do
      let keyword ← previousM
      let value ←
        if ¬ (← checkM .SEMICOLON) then some <$> expression fuel
        else pure none
      let _ ← consume .SEMICOLON "Expect semicolon after 'return'"
      pure (Stmt.Return keyword value)

/-- while_stmt(). -/
def while_stmt : Nat → Bool → ParserM Stmt
  | 0, _ => fun _ => .crash "RecursionError"
  | fuel + 1, _in_loop => do
      let _ ← consume .LEFT_PAREN "Expect '(' after 'while'."
      let condition ← expression fuel
      let _ ← consume .RIGHT_PAREN "Expect while condition to close with ')'."
      let body ← statement fuel true
      pure (Stmt.While condition body)

  termination_by structural fuel => fuel
/-- break_stmt(): unreachable from statement() (see there); kept as the
    source writes it. -/
def break_stmt : Nat → Bool → ParserM Stmt
  | 0, _ => fun _ => .crash "RecursionError"
  | _fuel + 1, in_loop => do
      if ¬ in_loop then
        errorP (← previousM) "Break statement only allowed within a loop."
      else do
        let _ ← consume .SEMICOLON "Expect ';' after 'break'."
        pure (Stmt.Break (← previousM))

/-- expr_stmt(). -/
def expr_stmt : Nat → ParserM Stmt
  | 0 => fun _ => .crash "RecursionError"
  | fuel + 1 => do
      let expr ← expression fuel
      let _ ← consume .SEMICOLON "Expect ';' after value."
      pure (Stmt.Expression expr)

/-- expression() defers to assignment(). -/
def expression : Nat → ParserM Expr
  | 0 => fun _ => .crash "RecursionError"
  | fuel + 1 => assignment fuel

  termination_by structural fuel => fuel
/-- assignment(). -/
def assignment : Nat → ParserM Expr
  | 0 => fun _ => .crash "RecursionError"
  | fuel + 1 => do
      let possible_lhs ← logic_or fuel
      if ¬ (← matchT [.EQUAL]) then pure possible_lhs
      else do
        let error_pos ← previousM
        let rhs ← assignment fuel
        match possible_lhs with
        | Expr.Variable _ name => do
            let id ← freshId
            pure (Expr.Assign id name rhs)
        | Expr.Get obj name => pure (Expr.Set obj name rhs)
        | _ => errorP error_pos "Invalid target for assignment"

  termination_by structural fuel => fuel
def logic_or : Nat → ParserM Expr
  | 0 => fun _ => .crash "RecursionError"
  | fuel + 1 => do
      let lhs ← logic_and fuel
      logic_orLoop fuel lhs

  termination_by structural fuel => fuel
def logic_orLoop : Nat → Expr → ParserM Expr
  | 0, _ => fun _ => .crash "RecursionError"
  | fuel + 1, acc => do
      if (← matchT [.OR]) then do
        let op ← previousM
        let rhs ← logic_and fuel
        logic_orLoop fuel (Expr.Logical acc op rhs)
      else pure acc

  termination_by structural fuel => fuel
def logic_and : Nat → ParserM Expr
  | 0 => fun _ => .crash "RecursionError"
  | fuel + 1 => do
      let lhs ← equality fuel
      logic_andLoop fuel lhs

  termination_by structural fuel => fuel
def logic_andLoop : Nat → Expr → ParserM Expr
  | 0, _ => fun _ => .crash "RecursionError"
  | fuel + 1, acc => do
      if (← matchT [.AND]) then do
        let op ← previousM
        let rhs ← equality fuel
        logic_andLoop fuel (Expr.Logical acc op rhs)
      else pure acc

  termination_by structural fuel => fuel
def equality : Nat → ParserM Expr
  | 0 => fun _ => .crash "RecursionError"
  | fuel + 1 => do
      let r ← comparison fuel
      equalityLoop fuel r

  termination_by structural fuel => fuel
def equalityLoop : Nat → Expr → ParserM Expr
  | 0, _ => fun _ => .crash "RecursionError"
  | fuel + 1, acc => do
      if (← matchT [.BANG_EQUAL, .EQUAL_EQUAL]) then do
        let op ← previousM
        let rhs ← comparison fuel
        equalityLoop fuel (Expr.Binary acc op rhs)
      else pure acc

  termination_by structural fuel => fuel
def comparison : Nat → ParserM Expr
  | 0 => fun _ => .crash "RecursionError"
  | fuel + 1 => do
      let r ← addition fuel
      comparisonLoop fuel r

  termination_by structural fuel => fuel
def comparisonLoop : Nat → Expr → ParserM Expr
  | 0, _ => fun _ => .crash "RecursionError"
  | fuel + 1, acc => do
      if (← matchT [.GREATER, .GREATER_EQUAL, .LESS, .LESS_EQUAL]) then do
        let op ← previousM
        let rhs ← addition fuel
        comparisonLoop fuel (Expr.Binary acc op rhs)
      else pure acc

  termination_by structural fuel => fuel
def addition : Nat → ParserM Expr
  | 0 => fun _ => .crash "RecursionError"
  | fuel + 1 => do
      let r ← multiplication fuel
      additionLoop fuel r

  termination_by structural fuel => fuel
def additionLoop : Nat → Expr → ParserM Expr
  | 0, _ => fun _ => .crash "RecursionError"
  | fuel + 1, acc => do
      if (← matchT [.MINUS, .PLUS]) then do
        let op ← previousM
        let rhs ← multiplication fuel
        additionLoop fuel (Expr.Binary acc op rhs)
      else pure acc

  termination_by structural fuel => fuel
def multiplication : Nat → ParserM Expr
  | 0 => fun _ => .crash "RecursionError"
  | fuel + 1 => do
      let r ← unary fuel
      multiplicationLoop fuel r

  termination_by structural fuel => fuel
def multiplicationLoop : Nat → Expr → ParserM Expr
  | 0, _ => fun _ => .crash "RecursionError"
  | fuel + 1, acc => do
      if (← matchT [.SLASH, .STAR]) then do
        let op ← previousM
        let rhs ← unary fuel
        multiplicationLoop fuel (Expr.Binary acc op rhs)
      else pure acc

  termination_by structural fuel => fuel
def unary : Nat → ParserM Expr
  | 0 => fun _ => .crash "RecursionError"
  | fuel + 1 => do
      if (← matchT [.BANG, .MINUS]) then do
        let op ← previousM
        let rhs ← unary fuel
        pure (Expr.Unary op rhs)
      else call fuel

  termination_by structural fuel => fuel
def call : Nat → ParserM Expr
  | 0 => fun _ => .crash "RecursionError"
  | fuel + 1 => do
      let e ← primary fuel
      callLoop fuel e

  termination_by structural fuel => fuel
def callLoop : Nat → Expr → ParserM Expr
  | 0, _ => fun _ => .crash "RecursionError"
  | fuel + 1, acc => do
      if (← matchT [.LEFT_PAREN]) then do
        let e ← finish_call fuel acc
        callLoop fuel e
      else if (← matchT [.DOT]) then do
        let name ← consume .IDENTIFIER "Expect property name after '.'"
        callLoop fuel (Expr.Get acc name)
      else pure acc

  termination_by structural fuel => fuel
def finish_call : Nat → Expr → ParserM Expr
  | 0, _ => fun _ => .crash "RecursionError"
  | fuel + 1, callee => do
      let args ← argsLoop fuel []
      let rparen ← consume .RIGHT_PAREN "This message cannot be displayed"
      pure (Expr.Call callee rparen args)

  termination_by structural fuel => fuel
def argsLoop : Nat → List Expr → ParserM (List Expr)
  | 0, _ => fun _ => .crash "RecursionError"
  | fuel + 1, acc => do
      if ¬ (← checkM .RIGHT_PAREN) then do
        let a ← expression fuel
        let acc := acc ++ [a]
        if acc.length ≥ Max_Args then
          -- the source raises ParseError(self.peek, ...) passing the bound
          -- method, not a token; reporting such an error dereferences
          -- `.line` on a method and crashes.
          fun _ => .crash "AttributeError: ParseError token is the method peek"
        else do
          let _ ← matchT [.COMMA]
          argsLoop fuel acc
      else pure acc

  termination_by structural fuel => fuel
/-- primary(): literals, identifiers, this/super and groups; the source
    explicitly turns `()` into a grouping of the literal nil. -/
def primary : Nat → ParserM Expr
  | 0 => fun _ => .crash "RecursionError"
  | fuel + 1 => do
      if (← matchT [.IDENTIFIER]) then do
        let t ← previousM
        let id ← freshId
        pure (Expr.Variable id t)
      else if (← matchT [.FALSE]) then pure (Expr.Literal (.bool false))
      else if (← matchT [.TRUE]) then pure (Expr.Literal (.bool true))
      else if (← matchT [.NIL]) then pure (Expr.Literal .pynone)
      else if (← matchT [.THIS]) then do
        let t ← previousM
        let id ← freshId
        pure (Expr.This id t)
      else if (← matchT [.SUPER]) then do
        let keyword ← previousM
        let _ ← consume .DOT "Expect '.' after 'super'"
        let method_name ← consume .IDENTIFIER "Expect superclass method name."
        let id ← freshId
        pure (Expr.Super id keyword method_name)
      else if (← matchT [.NUMBER, .STRING]) then do
        let t ← previousM
        pure (Expr.Literal t.literal)
      else if (← matchT [.LEFT_PAREN]) then do
        let grouped_expr ←
          if (← peekM).type = .RIGHT_PAREN then pure (Expr.Literal .pynone)
          else expression fuel
        let _ ← consume .RIGHT_PAREN "Expected ')' after expression"
        pure (Expr.Grouping grouped_expr)
      else do
        let bad_token ← peekM
        if bad_token.type ∈ [TokenType.PLUS, .SLASH, .STAR, .EQUAL, .GREATER, .LESS] then
          errorP bad_token "operator requires a left operand"
        else
          errorP bad_token "Unanticipated input"

  termination_by structural fuel => fuel
end

/-- parse()'s collection loop. -/
def parseLoop : Nat → List (Option Stmt) → ParserM (List (Option Stmt))
  | 0, _ => fun _ => .crash "RecursionError"
  | fuel + 1, acc => do
      if (← isAtEndM) then pure acc
      else do
        let d ← declaration fuel false
        parseLoop fuel (acc ++ [d])

/-- parse(): collect declarations; a ParseError that escapes declaration's
    own handler is reported and turns the result into None. -/
def parse (fuel : Nat) : ParserM (Option (List (Option Stmt))) :=
  catchParseError ((fun l => some l) <$> parseLoop fuel [])
    (fun t m => do
      errorReport t m
      pure none)

/-- Parser(tokens).parse() from a fresh parser state. -/
def runParse (fuel : Nat) (tokens : List Token) : PRes (Option (List (Option Stmt))) :=
  parse fuel { tokens := tokens, current := 0, reports := [], nextId := 0 }

end Parser

/-! ## LoxCallable.py: runtime values

A Python object reference to an Environment or a LoxInstance is an index
into the interpreter's frame/instance heap; `id` fields model object
identity (Python default `==` on class instances). -/

mutual
inductive Value where
  | nil
  | bool (b : Bool)
  | num (q : Rat)
  | str (s : String)
  | fn (id : Nat) (f : LoxFunctionV)
  | klass (id : Nat) (c : LoxClassV)
  | inst (i : Nat)
  | clock
inductive LoxFunctionV where
  | mk (declaration : FunctionDecl) (closure : Nat) (isInitializer : Bool)
inductive LoxClassV where
  | mk (name : String) (methods : List (String × LoxFunctionV))
      (super_class : Option LoxClassV)
end

def LoxFunctionV.declaration : LoxFunctionV → FunctionDecl
  | .mk d _ _ => d

def LoxFunctionV.closure : LoxFunctionV → Nat
  | .mk _ c _ => c

def LoxFunctionV.isInitializer : LoxFunctionV → Bool
  | .mk _ _ b => b

/-- LoxFunction.arity: the declared parameter count. -/
def LoxFunctionV.arity (f : LoxFunctionV) : Nat :=
  f.declaration.params.length

def LoxClassV.name : LoxClassV → String
  | .mk n _ _ => n

/-- LoxClass.findMethod: own table first, then the superclass chain. -/
def LoxClassV.findMethod : LoxClassV → String → Option LoxFunctionV
  | .mk _ methods sup, nm =>
      match methods.find? (fun p => p.1 = nm) with
      | some p => some p.2
      | none =>
          match sup with
          | some s => s.findMethod nm
          | none => none

/-- LoxClass.Init. -/
def InitName : String := "init"

/-- LoxClass.arity: the arity of a resolved `init`, else 0. -/
def LoxClassV.arity (c : LoxClassV) : Nat :=
  match c.findMethod InitName with
  | some ini => ini.arity
  | none => 0

/-! ## Python-semantics helpers -/

/-- The Python type tag of a runtime value (`type(x)`). -/
inductive PyTy where
  | NoneType | BoolTy | FloatTy | StrTy
  | LoxFunctionTy | LoxClassTy | LoxInstanceTy | ClockTy
deriving DecidableEq

def pyType : Value → PyTy
  | .nil => .NoneType
  | .bool _ => .BoolTy
  | .num _ => .FloatTy
  | .str _ => .StrTy
  | .fn _ _ => .LoxFunctionTy
  | .klass _ _ => .LoxClassTy
  | .inst _ => .LoxInstanceTy
  | .clock => .ClockTy

/-- Python `==` on the runtime values: None equals only None; bool is an int
    subclass, so booleans and numbers compare numerically across tags
    (True == 1.0); strings by contents; objects by identity. -/
def pyEq : Value → Value → Bool
  | .nil, .nil => true
  | .bool a, .bool b => a = b
  | .bool a, .num q => (if a then (1 : Rat) else 0) = q
  | .num q, .bool b => q = (if b then (1 : Rat) else 0)
  | .num a, .num b => a = b
  | .str a, .str b => a = b
  | .fn i _, .fn j _ => i = j
  | .klass i _, .klass j _ => i = j
  | .inst i, .inst j => i = j
  | .clock, .clock => true
  | _, _ => false

/-- Python exceptions float() can raise. -/
inductive PyExc where
  | ValueError | TypeError
deriving DecidableEq

/-- Modelled subset of Python `float(str)`: optional sign, decimal digits
    with an optional point (no exponent, inf/nan or whitespace forms; none
    of those occur in any theorem below). -/
def pyParseFloat (s : String) : Option Rat :=
  let cs := s.toList
  let signed : Rat × List Char :=
    match cs with
    | '-' :: rest => (-1, rest)
    | '+' :: rest => (1, rest)
    | _ => (1, cs)
  let sign := signed.1
  let cs := signed.2
  let intPart := cs.takeWhile pyIsDecimal
  let rest := cs.drop intPart.length
  match rest with
  | [] =>
      if intPart = [] then none
      else some (sign * (Scanner.digitsToNat intPart : Rat))
  | '.' :: frac =>
      if frac.all pyIsDecimal ∧ (intPart ≠ [] ∨ frac ≠ []) then
        some (sign * ((Scanner.digitsToNat intPart : Rat) +
          (Scanner.digitsToNat frac : Rat) / (10 : Rat) ^ frac.length))
      else none
  | _ => none

/-- Python `float(x)` on a runtime value: numbers pass through, booleans
    become 0/1, numeric strings parse, everything else raises (ValueError
    for an unparseable string, TypeError for None and objects). -/
def pyFloat : Value → Except PyExc Rat
  | .num q => .ok q
  | .bool b => .ok (if b then 1 else 0)
  | .str s =>
      match pyParseFloat s with
      | some q => .ok q
      | none => .error .ValueError
  | _ => .error .TypeError

/-- Python truthiness (`bool(x)`), used by `not`/`and` on fetched values:
    differs from Lox isTruthy on numbers and strings. -/
def pyBool : Value → Bool
  | .nil => false
  | .bool b => b
  | .num q => decide (q ≠ 0)
  | .str s => decide (s ≠ "")
  | _ => true

/-- Insert a decimal point `k` digits from the right, zero-padding. -/
def insertPoint (digits : String) (k : Nat) : String :=
  let s :=
    if digits.length ≤ k then
      String.mk (List.replicate (k + 1 - digits.length) '0') ++ digits
    else digits
  let cut := s.length - k
  (String.mk (s.toList.take cut)) ++ "." ++ (String.mk (s.toList.drop cut))

/-- Python `str(float)` modelled on the rational value: an integral double
    inside the positional-notation range prints as digits followed by
    `.0`; a value with a short exact decimal expansion prints it; floats
    Python would render in exponent notation are outside the model (no
    theorem touches one). -/
def pyFloatStr (q : Rat) : String :=
  if q.den = 1 ∧ q.num.natAbs < 10 ^ 16 then toString q.num ++ ".0"
  else
    match (List.range 16).find? (fun k => (q * (10 : Rat) ^ (k + 1)).den = 1) with
    | some k =>
        let scaled := (q * (10 : Rat) ^ (k + 1)).num
        (if scaled < 0 then "-" else "") ++
          insertPoint (toString scaled.natAbs) (k + 1)
    | none => "<float repr outside model>"

/-! ## Environment.py -/

/-- One Environment object: its dict plus the optional enclosing link. -/
structure Frame where
  table : List (String × Value)
  enclosing : Option Nat

def lookupAssoc {α : Type} (l : List (String × α)) (k : String) : Option α :=
  (l.find? (fun p => p.1 = k)).map (fun p => p.2)

/-- Python dict update: replace in place (insertion order kept) or append. -/
def updateAssoc {α : Type} (l : List (String × α)) (k : String) (v : α) :
    List (String × α) :=
  if (l.find? (fun p => p.1 = k)).isSome then
    l.map (fun p => if p.1 = k then (k, v) else p)
  else l ++ [(k, v)]

namespace Environment

def emptyFrame : Frame := { table := [], enclosing := none }

def getFrame (frames : List Frame) (e : Nat) : Frame :=
  frames.getD e emptyFrame

/-- define(name, value): unconditionally set at this scope. -/
def define (frames : List Frame) (e : Nat) (name : String) (v : Value) :
    List Frame :=
  frames.set e
    { getFrame frames e with table := updateAssoc (getFrame frames e).table name v }

/-- fetch(name): nearest definition up the enclosing chain; None = the
    NameError the source raises at the global scope.  The fuel bounds the
    chain walk; every chain the interpreter builds is shorter than the
    frame count, so `fetchTop` below always carries enough. -/
def fetch : List Frame → Nat → Nat → String → Option Value
  | _, 0, _, _ => none
  | frames, fuel + 1, e, name =>
      match lookupAssoc (getFrame frames e).table name with
      | some v => some v
      | none =>
          match (getFrame frames e).enclosing with
          | some p => fetch frames fuel p name
          | none => none

def fetchTop (frames : List Frame) (e : Nat) (name : String) : Option Value :=
  fetch frames (frames.length + 1) e name

/-- store(name, value): set at the nearest scope that has the name; None =
    NameError. -/
def store : List Frame → Nat → Nat → String → Value → Option (List Frame)
  | _, 0, _, _, _ => none
  | frames, fuel + 1, e, name, v =>
      if (lookupAssoc (getFrame frames e).table name).isSome then
        some (define frames e name v)
      else
        match (getFrame frames e).enclosing with
        | some p => store frames fuel p name v
        | none => none

def storeTop (frames : List Frame) (e : Nat) (name : String) (v : Value) :
    Option (List Frame) :=
  store frames (frames.length + 1) e name v

/-- ancestor(distance): follow `enclosing` distance times; None models the
    AttributeError of calling `.ancestor` on a missing parent. -/
def ancestor (frames : List Frame) : Nat → Nat → Option Nat
  | e, 0 => some e
  | e, d + 1 =>
      match (getFrame frames e).enclosing with
      | some p => ancestor frames p d
      | none => none

inductive EnvErr where
  | nameError (n : String)
  | attrError
deriving DecidableEq

/-- getAt(distance, name) = ancestor(distance).get(name).  `get` is the
    chain-walking fetch, so the read continues into enclosing scopes of
    the ancestor. -/
def getAt (frames : List Frame) (e : Nat) (distance : Nat) (name : String) :
    Except EnvErr Value :=
  match ancestor frames e distance with
  | none => .error .attrError
  | some a =>
      match fetchTop frames a name with
      | some v => .ok v
      | none => .error (.nameError name)

/-- assignAt(distance, name, value) = ancestor(distance).assign(name, value);
    assign is the chain-walking store. -/
def assignAt (frames : List Frame) (e : Nat) (distance : Nat) (name : String)
    (v : Value) : Except EnvErr (List Frame) :=
  match ancestor frames e distance with
  | none => .error .attrError
  | some a =>
      match storeTop frames a name v with
      | some fr => .ok fr
      | none => .error (.nameError name)

end Environment

/-! ## Interpreter.py -/

/-- One LoxInstance: its class and mutable fields dict. -/
structure InstData where
  klass : LoxClassV
  fields : List (String × Value)

/-- The Interpreter object's mutable attributes.  `locals` is the resolver
    side table keyed by reference-node identity; `stdout` collects print
    output. -/
structure Interpreter where
  frames : List Frame
  instances : List InstData
  globals : Nat
  environment : Nat
  locals : List (Nat × Nat)
  nextObjId : Nat
  stdout : List String

/-- The out-of-band loop-control variable name (Chapter 9 challenge 1). -/
def CONTINUE : String := "Â¿seguir?"

/-- builtinClock.call reads the wall clock; the reading is irrelevant to
    every claim and is modelled as an unspecified constant. -/
def clockNow : Rat := 0

/-- Interpreter.__init__: globals with the magic loop variable and clock;
    empty locals. -/
def initialInterpreter : Interpreter :=
  { frames := [ { table := [(CONTINUE, .bool true), ("clock", .clock)],
                  enclosing := none } ],
    instances := [], globals := 0, environment := 0, locals := [],
    nextObjId := 0, stdout := [] }

/-- Non-value outcomes of execution: Interpreter.EvaluationError, the
    ReturnUnwinder exception, or an uncaught Python-level error. -/
inductive Sig where
  | evalError (token : Token) (message : String)
  | returnUnwinder (value : Value)
  | pyError (message : String)

def IM (α : Type) := Interpreter → Except Sig α × Interpreter

instance : Monad IM where
  pure a := fun s => (.ok a, s)
  bind m f := fun s =>
    match m s with
    | (.ok a, s') => f a s'
    | (.error e, s') => (.error e, s')

def getI : IM Interpreter := fun s => (.ok s, s)

def modifyI (f : Interpreter → Interpreter) : IM Unit := fun s => (.ok (), f s)

def throwSig {α : Type} (e : Sig) : IM α := fun s => (.error e, s)

def crashI {α : Type} (msg : String) : IM α := fun s => (.error (.pyError msg), s)

namespace Interp

/-- `Environment(parent)`: allocate a fresh frame, return its reference. -/
def newEnvironment (parent : Option Nat) : IM Nat := fun s =>
  (.ok s.frames.length,
   { s with frames := s.frames ++ [{ table := [], enclosing := parent }] })

def defineI (e : Nat) (name : String) (v : Value) : IM Unit :=
  modifyI (fun s => { s with frames := Environment.define s.frames e name v })

def freshObjId : IM Nat := fun s =>
  (.ok s.nextObjId, { s with nextObjId := s.nextObjId + 1 })

/-- Interpreter.isTruthy: only nil and false are falsey in Lox. -/
def isTruthy (value : Value) : Bool :=
  match value with
  | .nil => false
  | .bool b => b
  | _ => true

/-- Interpreter.isEqual: delegates to Python `==`. -/
def isEqual (lhs rhs : Value) : Bool := pyEq lhs rhs

/-- Interpreter.lambdic: the binary arithmetic/comparison switch. -/
def lambdicOps : List TokenType :=
  [.PLUS, .MINUS, .STAR, .SLASH, .GREATER, .GREATER_EQUAL, .LESS, .LESS_EQUAL]

/-- One lambdic entry applied to the float-converted operands; the Unit
    error is ZeroDivisionError. -/
def lambdicApply (op : TokenType) (x y : Rat) : Except Unit Value :=
  match op with
  | .PLUS => .ok (.num (x + y))
  | .MINUS => .ok (.num (x - y))
  | .STAR => .ok (.num (x * y))
  | .SLASH => if y = 0 then .error () else .ok (.num (x / y))
  | .GREATER => .ok (.bool (decide (y < x)))
  | .GREATER_EQUAL => .ok (.bool (decide (y ≤ x)))
  | .LESS => .ok (.bool (decide (x < y)))
  | .LESS_EQUAL => .ok (.bool (decide (x ≤ y)))
  | _ => .ok .nil

/-- Python `str_value.endswith('.0')`, on the character list. -/
def endsWithDot0 (s : String) : Bool :=
  ['.', '0'].isSuffixOf s.toList

/-- Python `str_value[0:-2]`, on the character list. -/
def dropLast2 (s : String) : String :=
  String.mk (s.toList.take (s.toList.length - 2))

/-- A Literal node's stored Python value as a runtime value. -/
def litToValue : LitVal → Value
  | .pynone => .nil
  | .bool b => .bool b
  | .num q => .num q
  | .str s => .str s

/-- Python `str(value)` for the runtime values (`__str__` methods of the
    sources; instances need the heap for their class name). -/
def pyStr (instances : List InstData) : Value → String
  | .nil => "None"
  | .bool true => "True"
  | .bool false => "False"
  | .num q => pyFloatStr q
  | .str s => s
  | .fn _ f => "fun " ++ f.declaration.name.lexeme ++ "()"
  | .klass _ c => "class " ++ c.name
  | .inst i =>
      (match instances.getD i { klass := .mk "" [] none, fields := [] } with
        | d => d.klass.name ++ " instance.")
  | .clock => "native function 'time'"

def lookupNat (l : List (Nat × Nat)) (k : Nat) : Option Nat :=
  (l.find? (fun p => p.1 = k)).map (fun p => p.2)

/-- lookUpVariable: the locals side table decides the path, and both paths
    hand an Environment method typed for a Token the plain string
    name.lexeme — the miss branch calls self.globals.get(name.lexeme) and
    the hit branch self.environment.getAt(depth, name.lexeme), whose get()
    immediately dereferences `.lexeme` on that string.  A string has no
    such attribute, so every variable lookup, hit or miss, raises an
    uncaught AttributeError: the `except NameError` (which would convert a
    miss into the EvaluationError "Undefined name ...") never fires, and
    only getAt's leading ancestor() hops run first, able to raise their own
    AttributeError on a missing parent. -/
def lookUpVariable (_name : Token) (clientId : Nat) (_clientName : Option Token) :
    IM Value := do
  let s ← getI
  match lookupNat s.locals clientId with
  | none =>
      -- try: return self.globals.get(name.lexeme) — crashes inside get.
      crashI "AttributeError: str object has no attribute lexeme"
  | some depth =>
      -- return self.environment.getAt(depth, name.lexeme):
      -- ancestor(depth) runs first, then get(string) crashes.
      match Environment.ancestor s.frames s.environment depth with
      | none => crashI "AttributeError: NoneType has no attribute ancestor"
      | some _ => crashI "AttributeError: str object has no attribute lexeme"

/-- LoxFunction.bind(instance): fresh environment binding `this`, same
    declaration; a new LoxFunction object. -/
def bindFn (m : LoxFunctionV) (instV : Value) : IM Value := do
  let environment ← newEnvironment (some m.closure)
  defineI environment "this" instV
  let id ← freshObjId
  pure (.fn id (.mk m.declaration environment m.isInitializer))

/-- LoxInstance.get: fields first, then a bound method, else the NameError
    that visitGet converts into "Undefined property". -/
def instanceGet (i : Nat) (name : Token) : IM Value := do
  let s ← getI
  let d := s.instances.getD i { klass := .mk "" [] none, fields := [] }
  match lookupAssoc d.fields name.lexeme with
  | some v => pure v
  | none =>
      match d.klass.findMethod name.lexeme with
      | some m => bindFn m (.inst i)
      | none =>
          throwSig (.evalError name ("Undefined property '" ++ name.lexeme ++ "'."))

/-- LoxInstance.set. -/
def instanceSet (i : Nat) (name : Token) (v : Value) : IM Unit :=
  modifyI (fun s =>
    let d := s.instances.getD i { klass := .mk "" [] none, fields := [] }
    { s with instances :=
        s.instances.set i { d with fields := updateAssoc d.fields name.lexeme v } })

/-- zip of parameters and arguments, defined into the call frame. -/
def defineParams (e : Nat) : List Token → List Value → IM Unit
  | p :: ps, a :: as_ => do
      defineI e p.lexeme a
      defineParams e ps as_
  | _, _ => pure ()

/-- the callable's arity when `isinstance(x, LoxCallable)`, none otherwise. -/
def arityOf : Value → Option Nat
  | .fn _ f => some f.arity
  | .klass _ c => some c.arity
  | .clock => some 0
  | _ => none

/-- the method-building loop of visitClass. -/
def buildMethods : List FunctionDecl → IM (List (String × LoxFunctionV))
  | [] => pure []
  | m :: ms => do
      let s ← getI
      let _ ← freshObjId
      let mf : LoxFunctionV := .mk m s.environment (m.name.lexeme = InitName)
      let rest ← buildMethods ms
      pure ((m.name.lexeme, mf) :: rest)

/-- the `try: ... except ReturnUnwinder` of LoxFunction.call. -/
def tryCallBody (body : IM Unit) (onOk : IM Value) (onReturn : Value → IM Value) :
    IM Value := fun s =>
  match body s with
  | (.ok _, s') => onOk s'
  | (.error (.returnUnwinder v), s') => onReturn v s'
  | (.error e, s') => (.error e, s')

/-- LoxFunction.call's result selection for a completed body. -/
def callResult (f : LoxFunctionV) (returned : Option Value) : IM Value := do
  if f.isInitializer then do
    let s ← getI
    match Environment.fetchTop s.frames f.closure "this" with
    | some v => pure v
    | none => crashI "NameError: this"
  else
    pure (match returned with
      | some v => v
      | none => .nil)

mutual

/-- execute(): dispatch one statement. -/
def executeStmt : Nat → Stmt → IM Unit
  | 0, _ => fun s => (.error (.pyError "RecursionError"), s)
  | fuel + 1, stmt =>
      match stmt with
      | .Expression e => do
          let _ ← evaluate fuel e
          pure ()
      | .Print e => do
          let value ← evaluate fuel e
          let s ← getI
          let str_value := pyStr s.instances value
          let str_value :=
            if endsWithDot0 str_value then dropLast2 str_value else str_value
          modifyI (fun s2 => { s2 with stdout := s2.stdout ++ [str_value] })
      | .Var name initializer => do
          let value ←
            match initializer with
            | none => pure Value.nil
            | some e => evaluate fuel e
          let s ← getI
          defineI s.environment name.lexeme value
      | .Class name methods superclass => visitClass fuel name methods superclass
      | .Function decl => do
          let s ← getI
          let id ← freshObjId
          defineI s.environment decl.name.lexeme
            (.fn id (.mk decl s.environment false))
      | .Return _ value => do
          let return_value ←
            match value with
            | none => pure Value.nil
            | some e => evaluate fuel e
          throwSig (.returnUnwinder return_value)
      | .While condition body => do
          let s ← getI
          defineI s.environment CONTINUE (.bool true)
          whileLoop fuel condition body
          let s2 ← getI
          defineI s2.environment CONTINUE (.bool true)
      | .Break _ => do
          let s ← getI
          defineI s.environment CONTINUE (.bool false)
      | .Block statements => do
          let s ← getI
          let context ← newEnvironment (some s.environment)
          execute_block fuel statements context
      | .If condition thenBranch elseBranch => do
          let c ← evaluate fuel condition
          if isTruthy c then executeStmt fuel thenBranch
          else
            match elseBranch with
            | some e => executeStmt fuel e
            | none => pure ()

  termination_by structural fuel => fuel
/-- visitWhile's loop: condition, then the magic CONTINUE flag (Python
    `and` short-circuits, so the flag is read only when the condition was
    truthy). -/
def whileLoop : Nat → Expr → Stmt → IM Unit
  | 0, _, _ => fun s => (.error (.pyError "RecursionError"), s)
  | fuel + 1, condition, body => do
      let c ← evaluate fuel condition
      if ¬ isTruthy c then pure ()
      else do
        let s ← getI
        match Environment.fetchTop s.frames s.environment CONTINUE with
        | none => crashI ("NameError: " ++ CONTINUE)
        | some contv =>
            if ¬ pyBool contv then pure ()
            else do
              executeStmt fuel body
              whileLoop fuel condition body

  termination_by structural fuel => fuel
/-- execute_block: swap in the context, run the statements, and restore the
    enclosing environment in a finally-discipline (also on unwind; fuel
    exhaustion inside the loop likewise leaves through the restore). -/
def execute_block : Nat → List Stmt → Nat → IM Unit
  | 0, _, _ => fun s => (.error (.pyError "RecursionError"), s)
  | fuel + 1, stmts, context => fun s =>
      let save_context := s.environment
      match blockBody fuel stmts { s with environment := context } with
      | (r, s2) => (r, { s2 with environment := save_context })

  termination_by structural fuel => fuel
/-- the statement loop inside execute_block, stopping when a break cleared
    the CONTINUE flag. -/
def blockBody : Nat → List Stmt → IM Unit
  | 0, _ => fun s => (.error (.pyError "RecursionError"), s)
  | _ + 1, [] => pure ()
  | fuel + 1, stmt :: rest => do
      executeStmt fuel stmt
      let s ← getI
      match Environment.fetchTop s.frames s.environment CONTINUE with
      | none => crashI ("NameError: " ++ CONTINUE)
      | some v =>
          if ¬ pyBool v then pure ()
          else blockBody fuel rest

  termination_by structural fuel => fuel
/-- visitClass: two-step definition, optional synthetic super scope,
    methods built with the (possibly pushed) environment as closure; the
    closing environment.assign(name_str, klass) hands the Token-typed
    assign a plain string and crashes with an uncaught AttributeError. -/
def visitClass : Nat → Token → List FunctionDecl → Option Expr → IM Unit
  | 0, _, _, _ => fun s => (.error (.pyError "RecursionError"), s)
  | fuel + 1, name, methods, superclass => do
  let superV ←
    match superclass with
    | none => pure Value.nil
    | some e => do
        let sv ← evaluate fuel e
        match sv with
        | .klass _ _ => pure sv
        | _ =>
            match e with
            | .Variable _ t => throwSig (.evalError t "Superclass must be a class.")
            | _ => crashI "AttributeError: superclass expression has no name"
  let name_str := name.lexeme
  let s ← getI
  defineI s.environment name_str .nil
  (match superclass with
    | some _ => do
        let s2 ← getI
        let e ← newEnvironment (some s2.environment)
        modifyI (fun s3 => { s3 with environment := e })
        defineI e "super" superV
    | none => pure ())
  let meth_dict ← buildMethods methods
  let klassId ← freshObjId
  let superC : Option LoxClassV :=
    match superV with
    | .klass _ c => some c
    | _ => none
  let _klass : Value := .klass klassId (.mk name_str meth_dict superC)
  (match superclass with
    | some _ => do
        let s4 ← getI
        match (Environment.getFrame s4.frames s4.environment).enclosing with
        | some p => modifyI (fun s5 => { s5 with environment := p })
        | none => crashI "AttributeError: environment has no enclosing"
    | none => pure ())
  -- self.environment.assign(name_str, klass): assign expects a Token and
  -- dereferences `.lexeme` on the string name_str, so after the LoxClass
  -- object is built every class declaration ends in this uncaught
  -- AttributeError.
  crashI "AttributeError: str object has no attribute lexeme"

  termination_by structural fuel => fuel
/-- evaluate(): dispatch one expression. -/
def evaluate : Nat → Expr → IM Value
  | 0, _ => fun s => (.error (.pyError "RecursionError"), s)
  | fuel + 1, expr =>
      match expr with
      | .Literal v => pure (litToValue v)
      | .Logical left operator right => do
          let lvalue ← evaluate fuel left
          if operator.type = .OR then
            if isTruthy lvalue then pure lvalue else evaluate fuel right
          else
            if ¬ isTruthy lvalue then pure lvalue else evaluate fuel right
      | .Grouping e => evaluate fuel e
      | .Variable id name => lookUpVariable name id (some name)
      | .This id keyword => lookUpVariable keyword id none
      | .Assign id _name value => do
          -- value = self.evaluate(client.value) runs first, with its
          -- effects; then both branches hand an Environment method typed
          -- for a Token the plain string client.name.lexeme, and assign's
          -- `.lexeme` dereference on that string raises an uncaught
          -- AttributeError (the except clause catches only NameError).
          let _ ← evaluate fuel value
          let s ← getI
          match lookupNat s.locals id with
          | none =>
              -- self.globals.assign(client.name.lexeme, value)
              crashI "AttributeError: str object has no attribute lexeme"
          | some depth =>
              -- assignAt(depth, string, v) = ancestor(depth).assign(string, v):
              -- the ancestor hops run before the crashing dereference.
              match Environment.ancestor s.frames s.environment depth with
              | none => crashI "AttributeError: NoneType has no attribute ancestor"
              | some _ => crashI "AttributeError: str object has no attribute lexeme"
      | .Unary operator right => do
          let rhs ← evaluate fuel right
          if operator.type = .MINUS then
            match pyFloat rhs with
            | .ok q => pure (.num (-q))
            | .error .ValueError =>
                throwSig (.evalError operator "A numeric value is required")
            | .error .TypeError => crashI "TypeError: float() argument"
          else pure (.bool (¬ isTruthy rhs))
      | .Call callee paren arguments => do
          let calleeV ← evaluate fuel callee
          match arityOf calleeV with
          | none =>
              throwSig (.evalError paren "Only functions and classes can be called.")
          | some ar => do
              let params ← evalArgs fuel arguments
              if ar ≠ params.length then
                throwSig (.evalError paren
                  ("Expected " ++ toString ar ++ " arguments but got " ++
                    toString params.length ++ "."))
              else callValue fuel calleeV params
      | .Get object name => do
          let source ← evaluate fuel object
          match source with
          | .inst i => instanceGet i name
          | _ => throwSig (.evalError name "Only instances have properties")
      | .Set object name value => do
          let target ← evaluate fuel object
          match target with
          | .inst i => do
              let v ← evaluate fuel value
              instanceSet i name v
              pure v
          | _ => throwSig (.evalError name "Only instances may have fields")
      | .Super id _keyword _method => do
          let s ← getI
          match lookupNat s.locals id with
          | none => crashI "KeyError: locals"
          | some depth =>
              -- self.environment.getAt(depth, "super") hands get() the
              -- plain string "super"; get dereferences `.lexeme` on it, so
              -- after the ancestor hops every super expression raises an
              -- uncaught AttributeError (the "this" fetch, the method
              -- lookup and the bind below it in the source are dead code).
              match Environment.ancestor s.frames s.environment depth with
              | none => crashI "AttributeError: NoneType has no attribute ancestor"
              | some _ => crashI "AttributeError: str object has no attribute lexeme"
      | .Binary left operator right => do
          let lhs ← evaluate fuel left
          let rhs ← evaluate fuel right
          let op := operator.type
          if op = .EQUAL_EQUAL then pure (.bool (isEqual lhs rhs))
          else if op = .BANG_EQUAL then pure (.bool (¬ isEqual lhs rhs))
          else
            match lhs, rhs, op with
            | .str a, .str b, .PLUS => pure (.str (a ++ b))
            | _, _, _ =>
                if op = .PLUS ∧ pyType lhs ≠ pyType rhs then
                  throwSig (.evalError operator "Both operands must have the same type")
                else if op ∈ lambdicOps then
                  match pyFloat lhs with
                  | .error .ValueError =>
                      throwSig (.evalError operator "Numeric operands required")
                  | .error .TypeError => crashI "TypeError: float() argument"
                  | .ok x =>
                      match pyFloat rhs with
                      | .error .ValueError =>
                          throwSig (.evalError operator "Numeric operands required")
                      | .error .TypeError => crashI "TypeError: float() argument"
                      | .ok y =>
                          match lambdicApply op x y with
                          | .ok v => pure v
                          | .error () =>
                              throwSig (.evalError operator "Cannot divide by zero")
                else crashI "NotImplementedError"

  termination_by structural fuel => fuel
/-- left-to-right argument evaluation. -/
def evalArgs : Nat → List Expr → IM (List Value)
  | 0, _ => fun s => (.error (.pyError "RecursionError"), s)
  | _ + 1, [] => pure []
  | fuel + 1, a :: rest => do
      let v ← evaluate fuel a
      let vs ← evalArgs fuel rest
      pure (v :: vs)

  termination_by structural fuel => fuel
/-- callee.call(interpreter, params) for each LoxCallable. -/
def callValue : Nat → Value → List Value → IM Value
  | 0, _, _ => fun s => (.error (.pyError "RecursionError"), s)
  | fuel + 1, calleeV, params =>
      match calleeV with
      | .fn _ f => functionCall fuel f params
      | .klass _ c => classCall fuel c params
      | .clock => pure (.num clockNow)
      | _ => crashI "unreachable: arity-checked non-callable"

  termination_by structural fuel => fuel
/-- LoxFunction.call: fresh frame over the closure, parameters bound, body
    through execute_block, ReturnUnwinder caught; initializers answer with
    the closure's `this`. -/
def functionCall : Nat → LoxFunctionV → List Value → IM Value
  | 0, _, _ => fun s => (.error (.pyError "RecursionError"), s)
  | fuel + 1, f, args => do
      let environment ← newEnvironment (some f.closure)
      defineParams environment f.declaration.params args
      tryCallBody (execute_block fuel f.declaration.body environment)
        (callResult f none)
        (fun v => callResult f (some v))

  termination_by structural fuel => fuel
/-- LoxClass.call: new instance; a found `init` is bound and called. -/
def classCall : Nat → LoxClassV → List Value → IM Value
  | 0, _, _ => fun s => (.error (.pyError "RecursionError"), s)
  | fuel + 1, c, params => do
      let i ← (fun s =>
        (Except.ok s.instances.length,
         { s with instances := s.instances ++ [{ klass := c, fields := [] }] }))
      match c.findMethod InitName with
      | some ini => do
          let bound ← bindFn ini (.inst i)
          match bound with
          | .fn _ bf => do
              let _ ← functionCall fuel bf params
              pure (.inst i)
          | _ => crashI "unreachable: bind returned a non-function"
      | none => pure (.inst i)

  termination_by structural fuel => fuel
end

/-- interpret()'s statement loop (no handler; run_lox applies the
    `except EvaluationError` reporting at the top). -/
def interpretLoop : Nat → List (Option Stmt) → IM Unit
  | 0, _ => fun s => (.error (.pyError "RecursionError"), s)
  | _ + 1, [] => pure ()
  | _ + 1, none :: _ => crashI "AttributeError: NoneType has no accept"
  | fuel + 1, some st :: rest => do
      executeStmt fuel st
      interpretLoop fuel rest

end Interp

/-! ## plox.py: run_lox

The driver as written: source → Scanner → Parser → Interpreter.  No
Resolver is constructed or run anywhere in plox.py, so the interpreter's
`locals` side table stays empty for the whole run. -/

structure RunOut where
  stdout : List String
  stderr : List String
  crashed : Option String
deriving DecidableEq, Repr

def run_lox (fuel : Nat) (lox_code : String) : RunOut :=
  let sc := Scanner.scanTokens lox_code
  let stderrLex := sc.lexReports.map (fun r => lex_error r.1 r.2.1 r.2.2)
  if stderrLex ≠ [] then { stdout := [], stderr := stderrLex, crashed := none }
  else
    match Parser.runParse fuel sc.tokens with
    | .crash m => { stdout := [], stderr := [], crashed := some m }
    | .perr _ m _ =>
        -- unreachable: parse() catches every ParseError.
        { stdout := [], stderr := [], crashed := some ("ParseError: " ++ m) }
    | .ok program ps =>
        if ps.reports ≠ [] then
          { stdout := [], stderr := ps.reports, crashed := none }
        else
          match program with
          | none =>
              -- parse() returns None only after reporting; unreachable here.
              { stdout := [], stderr := ps.reports, crashed := none }
          | some prog =>
              if prog.length = 0 then { stdout := [], stderr := [], crashed := none }
              else
                match prog with
                | [some (Stmt.Expression e)] =>
                    -- desk-calculator mode: one_line_program, then print(value)
                    -- (raw str(), no .0 stripping; an EvaluationError is
                    -- reported and the printed value is Python None).
                    (match Interp.evaluate fuel e initialInterpreter with
                      | (.ok v, s') =>
                          { stdout := s'.stdout ++ [Interp.pyStr s'.instances v],
                            stderr := [], crashed := none }
                      | (.error (.evalError t m), s') =>
                          { stdout := s'.stdout ++ [Interp.pyStr s'.instances .nil],
                            stderr := [parse_error t m], crashed := none }
                      | (.error (.returnUnwinder _), s') =>
                          { stdout := s'.stdout, stderr := [],
                            crashed := some "ReturnUnwinder" }
                      | (.error (.pyError m), s') =>
                          { stdout := s'.stdout, stderr := [], crashed := some m })
                | _ =>
                    match Interp.interpretLoop fuel prog initialInterpreter with
                    | (.ok _, s') =>
                        { stdout := s'.stdout, stderr := [], crashed := none }
                    | (.error (.evalError t m), s') =>
                        -- interpret()'s except EvaluationError → error_report
                        { stdout := s'.stdout, stderr := [parse_error t m],
                          crashed := none }
                    | (.error (.returnUnwinder _), s') =>
                        { stdout := s'.stdout, stderr := [],
                          crashed := some "ReturnUnwinder" }
                    | (.error (.pyError m), s') =>
                        { stdout := s'.stdout, stderr := [], crashed := some m }

/-! ## Resolver.py

Run separately from run_lox (nothing in plox.py invokes it).  The
FunctionType enumeration of the source has exactly the two members NOFUN
and FUNCTION. -/

inductive FunctionType where
  | NOFUN
  | FUNCTION
deriving DecidableEq, Repr

/-- A scope-dict entry: False (declared) is 0, defined is the declaration's
    line number (≥ 1), referenced is -1, exactly the integers the source
    stores (Python `False == 0`). -/
structure RState where
  scopes : List (List (String × Int))
  current_function : FunctionType
  resolutions : List (Nat × Nat)
  reports : List (Token × String)

inductive RRes (α : Type) where
  | ok (a : α) (s : RState)
  | rerr (t : Token) (msg : String) (s : RState)
  | crash (msg : String)

def ResolverM (α : Type) := RState → RRes α

instance : Monad ResolverM where
  pure a := fun s => .ok a s
  bind m f := fun s =>
    match m s with
    | .ok a s' => f a s'
    | .rerr t msg s' => .rerr t msg s'
    | .crash msg => .crash msg

namespace Resolver

def getR : RState → RRes RState := fun s => .ok s s

def modifyR (f : RState → RState) : ResolverM Unit := fun s => .ok () (f s)

def throwR {α : Type} (t : Token) (msg : String) : ResolverM α :=
  fun s => .rerr t msg s

def crashR {α : Type} (msg : String) : ResolverM α := fun _ => .crash msg

/-- beginScope(): push an empty dict. -/
def beginScope : ResolverM Unit :=
  modifyR (fun s => { s with scopes := s.scopes ++ [[]] })

/-- endScope(): pop, raising on the first entry whose value is a line
    number ≥ 1 (defined but never referenced; Chapter 11 challenge 3). -/
def endScope : ResolverM Unit := fun s =>
  match s.scopes.getLast? with
  | none => .crash "IndexError: pop from empty list"
  | some dying =>
      let s' : RState := { s with scopes := s.scopes.dropLast }
      match dying.find? (fun p => 1 ≤ p.2) with
      | some p =>
          .rerr { type := .IDENTIFIER, lexeme := p.1, literal := .pynone,
                  line := p.2.toNat }
            ("Variable " ++ p.1 ++ " never referenced in its scope") s'
      | none => .ok () s'

/-- declare(item): mark False in the innermost scope, rejecting a repeat. -/
def declare (item : Token) : ResolverM Unit := fun s =>
  match s.scopes.getLast? with
  | none => .ok () s
  | some scope =>
      if (lookupAssoc scope item.lexeme).isSome then
        .rerr item "Variable with this name already declared in this scope." s
      else
        .ok ()
          { s with scopes := s.scopes.dropLast ++ [updateAssoc scope item.lexeme 0] }

/-- define(item): record the declaration line (nonzero: legal to use). -/
def define (item : Token) : ResolverM Unit := fun s =>
  match s.scopes.getLast? with
  | none => .ok () s
  | some scope =>
      .ok ()
        { s with scopes :=
            s.scopes.dropLast ++ [updateAssoc scope item.lexeme (Int.ofNat item.line)] }

/-- resolveLocal: innermost-out search; a hit records the depth with the
    interpreter (here: the resolutions list) and marks the entry -1. -/
def resolveLocal (exprId : Nat) (name : Token) : ResolverM Unit := fun s =>
  let n := s.scopes.length
  match (List.range n).reverse.find?
      (fun index => (lookupAssoc (s.scopes.getD index []) name.lexeme).isSome) with
  | some index =>
      .ok ()
        { s with
            resolutions := s.resolutions ++ [(exprId, n - 1 - index)],
            scopes := s.scopes.map
              (fun sc => sc) |>.set index (updateAssoc (s.scopes.getD index []) name.lexeme (-1)) }
  | none => .ok () s

/-- the parameter-defining loop of resolveFunDecl. -/
def defineAll : List Token → ResolverM Unit
  | [] => pure ()
  | p :: ps => do
      define p
      defineAll ps

mutual

/-- statement.accept(resolver): Resolver's overrides; everything else
    (Class, Break) falls to GenericVisitor's `pass`. -/
def resolveStmt : Nat → Stmt → ResolverM Unit
  | 0, _ => fun _ => .crash "RecursionError"
  | fuel + 1, stmt =>
      match stmt with
      | .Block statements => do
          beginScope
          resolveStmts fuel statements
          endScope
      | .Var name initializer => do
          declare name
          (match initializer with
            | some e => resolveExpr fuel e
            | none => pure ())
          define name
      | .Function decl => do
          declare decl.name
          define decl.name
          resolveFunDecl fuel decl FunctionType.FUNCTION
      | .If condition thenBranch elseBranch => do
          resolveExpr fuel condition
          resolveStmt fuel thenBranch
          (match elseBranch with
            | some e => resolveStmt fuel e
            | none => pure ())
      | .While condition body => do
          resolveExpr fuel condition
          resolveStmt fuel body
      | .Expression e => resolveExpr fuel e
      | .Print e => resolveExpr fuel e
      | .Return keyword value => do
          let s ← (fun s => RRes.ok s s)
          if s.current_function = FunctionType.NOFUN then
            throwR keyword "Cannot return from top-level code."
          else
            -- the source unconditionally visits client.value; the parser
            -- stores Python None for a bare `return;`, so that crashes.
            match value with
            | some e => resolveExpr fuel e
            | none => crashR "AttributeError: NoneType has no accept"
      | .Class _ _ _ => pure ()
      | .Break _ => pure ()

  termination_by structural fuel => fuel
def resolveStmts : Nat → List Stmt → ResolverM Unit
  | 0, _ => fun _ => .crash "RecursionError"
  | _ + 1, [] => pure ()
  | fuel + 1, st :: rest => do
      resolveStmt fuel st
      resolveStmts fuel rest

  termination_by structural fuel => fuel
/-- resolveFunDecl: save/replace current_function, scope the parameters,
    resolve the body, restore. -/
def resolveFunDecl : Nat → FunctionDecl → FunctionType → ResolverM Unit
  | 0, _, _ => fun _ => .crash "RecursionError"
  | fuel + 1, decl, funtype => do
      let s ← (fun s => RRes.ok s s)
      let enclosing_fun_type := s.current_function
      modifyR (fun s2 => { s2 with current_function := funtype })
      beginScope
      defineAll decl.params
      resolveStmts fuel decl.body
      endScope
      modifyR (fun s2 => { s2 with current_function := enclosing_fun_type })

  termination_by structural fuel => fuel
/-- expression.accept(resolver): Resolver's overrides; Get/Set/This/Super
    fall to GenericVisitor's `pass` (never overridden in the source). -/
def resolveExpr : Nat → Expr → ResolverM Unit
  | 0, _ => fun _ => .crash "RecursionError"
  | fuel + 1, expr =>
      match expr with
      | .Variable id name => do
          let s ← (fun s => RRes.ok s s)
          let declaredUnusable : Bool :=
            match s.scopes.getLast? with
            | some sc => lookupAssoc sc name.lexeme == some 0
            | none => false
          if declaredUnusable then
            throwR name "Cannot refer to local variable in its own initializer"
          else resolveLocal id name
      | .Assign id name value => do
          resolveExpr fuel value
          resolveLocal id name
      | .Call callee _ arguments => do
          resolveExpr fuel callee
          resolveExprs fuel arguments
      | .Binary left _ right => do
          resolveExpr fuel left
          resolveExpr fuel right
      | .Logical left _ right => do
          resolveExpr fuel left
          resolveExpr fuel right
      | .Unary _ right => resolveExpr fuel right
      | .Grouping e => resolveExpr fuel e
      | .Literal _ => pure ()
      | .Get _ _ => pure ()
      | .Set _ _ _ => pure ()
      | .This _ _ => pure ()
      | .Super _ _ _ => pure ()

  termination_by structural fuel => fuel
def resolveExprs : Nat → List Expr → ResolverM Unit
  | 0, _ => fun _ => .crash "RecursionError"
  | _ + 1, [] => pure ()
  | fuel + 1, e :: rest => do
      resolveExpr fuel e
      resolveExprs fuel rest

  termination_by structural fuel => fuel
end

def initialRState : RState :=
  { scopes := [], current_function := .NOFUN, resolutions := [], reports := [] }

/-- resolve(statements): the top-level entry; a ResolutionError is caught
    and handed to error_report. -/
def resolve (fuel : Nat) (statements : List Stmt) : RRes Unit :=
  match resolveStmts fuel statements initialRState with
  | .rerr t msg s => .ok () { s with reports := s.reports ++ [(t, msg)] }
  | r => r

end Resolver

/-! ## Theorems settling the claims -/

/-- a punctuation/operator token as the scanner would emit it on line 1. -/
def opTok (ty : TokenType) (lx : String) : Token :=
  { type := ty, lexeme := lx, literal := .pynone, line := 1 }

/-- an identifier token on line 1. -/
def identTok (lx : String) : Token :=
  { type := .IDENTIFIER, lexeme := lx, literal := .pynone, line := 1 }

/-- the parsed statement of a successful expression parse, for stating
    parser results without fixing the rest of the parser state. -/
def exprParseResult (r : PRes Expr) : Option Expr :=
  match r with
  | .ok e _ => some e
  | _ => none

/-- execute_block ends by writing the saved environment back, whatever the
    statement loop produced (shared by the block-statement theorem). -/
theorem execute_block_restores_env (fuel : Nat) (stmts : List Stmt) (context : Nat)
    (s : Interpreter) :
    (Interp.execute_block fuel stmts context s).2.environment = s.environment := by
  cases fuel with
  | zero => rfl
  | succ n =>
      show (match Interp.blockBody n stmts { s with environment := context } with
            | (r, s2) => (r, { s2 with environment := s.environment })).2.environment
          = s.environment
      rcases Interp.blockBody n stmts { s with environment := context } with ⟨r, s2⟩
      rfl

/-- C9: executing a Block statement leaves `interpreter.environment` equal
    to its value from before the block, for every starting state, every
    statement list and every fuel — hence on normal completion and on every
    exceptional unwind (runtime EvaluationError, ReturnUnwinder, uncaught
    Python error, fuel exhaustion) alike: execute_block restores the saved
    enclosing environment around every outcome of its statement loop. -/
theorem block_statement_restores_environment (fuel : Nat) (st : Interpreter)
    (stmts : List Stmt) :
    (Interp.executeStmt fuel (Stmt.Block stmts) st).2.environment = st.environment := by
  cases fuel with
  | zero => rfl
  | succ n =>
      exact execute_block_restores_env n stmts st.frames.length
        { st with frames := st.frames ++ [{ table := [], enclosing := some st.environment }] }

/-- C8 counterexample: an environment (frame 1) that lacks "x" whose parent
    (frame 0) binds it; `getAt(0, "x")` called on frame 1 answers with the
    parent's binding instead of failing, so the claimed scope-exact access
    with "no walk of the enclosing chain" is false. -/
theorem getAt_zero_returns_parent_binding :
    lookupAssoc (Environment.getFrame
        [ { table := [("x", Value.num 1)], enclosing := none },
          { table := [], enclosing := some 0 } ] 1).table "x" = none
    ∧ Environment.getAt
        [ { table := [("x", Value.num 1)], enclosing := none },
          { table := [], enclosing := some 0 } ] 1 0 "x" =
        .ok (Value.num 1) :=
  ⟨rfl, rfl⟩

/-- C8 amended: getAt/assignAt hop `depth` parents with ancestor() and then
    perform the ordinary chain-walking get/assign from that scope: a name
    missing at the target scope is read from (or assigned in) its
    ancestors, and a hit at depth d ignores shallower shadowing bindings. -/
theorem getAt_assignAt_walk_the_chain :
    (∀ v : Value,
      Environment.getAt
        [ { table := [("x", v)], enclosing := none },
          { table := [], enclosing := some 0 } ] 1 0 "x" = .ok v)
    ∧ (∀ v w : Value,
      Environment.assignAt
        [ { table := [("x", v)], enclosing := none },
          { table := [], enclosing := some 0 } ] 1 0 "x" w =
        .ok [ { table := [("x", w)], enclosing := none },
              { table := [], enclosing := some 0 } ])
    ∧ (∀ v w : Value,
      Environment.getAt
        [ { table := [("x", v)], enclosing := none },
          { table := [("x", w)], enclosing := some 0 } ] 1 1 "x" = .ok v) :=
  ⟨fun _ => rfl, fun _ _ => rfl, fun _ _ => rfl⟩

/-- C2: the scanner has no `break` keyword — the source text `break;` lexes
    as an IDENTIFIER token followed by a semicolon (keywordLookup knows no
    "break" and TokenType.py defines no BREAK kind) — and parsing those
    tokens does not report "Break statement only allowed within a loop."
    but crashes: Parser.statement evaluates the undefined global name
    BREAK, raising NameError before break_stmt can run. -/
theorem break_lexes_as_identifier_and_parsing_crashes :
    (Scanner.scanTokens "break;").tokens =
      [ { type := .IDENTIFIER, lexeme := "break", literal := .pynone, line := 1 },
        { type := .SEMICOLON, lexeme := ";", literal := .pynone, line := 1 },
        { type := .EOF, lexeme := "", literal := .pynone, line := 1 } ]
    ∧ keywordLookup "break" = none
    ∧ Parser.runParse 500 (Scanner.scanTokens "break;").tokens =
        .crash "NameError: name BREAK is not defined" := by
  refine ⟨?_, rfl, ?_⟩ <;> with_unfolding_all rfl

/-- C10: primary() does accept `()` and yields a grouping of the literal
    nil, which evaluates to nil; but the full expression statement `();`
    does not parse successfully — statement() dies on the undefined name
    BREAK (NameError) before expr_stmt is reached, so run_lox crashes. -/
theorem empty_parens_group_nil_but_statement_crashes :
    exprParseResult (Parser.expression 100
        { tokens := (Scanner.scanTokens "()").tokens, current := 0, reports := [],
          nextId := 0 }) = some (Expr.Grouping (Expr.Literal .pynone))
    ∧ Interp.evaluate 2 (Expr.Grouping (Expr.Literal .pynone)) initialInterpreter
        = (.ok Value.nil, initialInterpreter)
    ∧ run_lox 500 "();" =
        { stdout := [], stderr := [],
          crashed := some "NameError: name BREAK is not defined" } := by
  refine ⟨?_, ?_, ?_⟩ <;> with_unfolding_all rfl

/-- C1: run_lox never constructs or runs a Resolver (the interpreter's
    locals side table stays empty, as initialInterpreter shows), so no
    reference is ever found at a resolved depth; with the table empty,
    lookUpVariable falls back to self.globals.get(name.lexeme), which hands
    the Token-typed Environment.get a plain string whose `.lexeme`
    dereference raises an uncaught AttributeError.  Running
    `fun f(n){ return n; } print f(1);` therefore prints nothing and
    crashes on the very first variable lookup (of `f`) instead of
    printing 1. -/
theorem run_lox_crashes_on_first_variable_lookup :
    run_lox 500 "fun f(n){ return n; } print f(1);" =
      { stdout := [],
        stderr := [],
        crashed := some "AttributeError: str object has no attribute lexeme" }
    ∧ initialInterpreter.locals = [] := by
  refine ⟨?_, rfl⟩
  with_unfolding_all rfl

/-- C5 counterexample: a boolean compared to a number is NOT always unequal
    as the claim states — isEqual delegates to Python `==`, under which
    `true == 1` holds although the two operands have different tags. -/
theorem isEqual_true_equals_one :
    Interp.isEqual (Value.bool true) (Value.num 1) = true
    ∧ pyType (Value.bool true) ≠ pyType (Value.num 1) :=
  ⟨by with_unfolding_all rfl, by decide⟩

/-- C5 amended: equality follows Python `==`: nil equals only nil; numbers
    by value; strings by contents; booleans compare numerically with
    numbers across tags (True == 1.0, False == 0.0); every other pair of
    differently-tagged values is unequal; and evaluating `==` on literal
    operands never errors — it always yields a boolean without touching
    the state. -/
theorem equality_follows_python_eq :
    Interp.isEqual Value.nil Value.nil = true
    ∧ (∀ v : Value, pyType v ≠ PyTy.NoneType →
        Interp.isEqual Value.nil v = false ∧ Interp.isEqual v Value.nil = false)
    ∧ (∀ q r : Rat, Interp.isEqual (.num q) (.num r) = decide (q = r))
    ∧ (∀ a b : String, Interp.isEqual (.str a) (.str b) = decide (a = b))
    ∧ (∀ (b : Bool) (q : Rat),
        Interp.isEqual (.bool b) (.num q) = decide ((if b then (1 : Rat) else 0) = q))
    ∧ (∀ v w : Value, pyType v ≠ pyType w →
        ¬ (pyType v = .BoolTy ∧ pyType w = .FloatTy) →
        ¬ (pyType v = .FloatTy ∧ pyType w = .BoolTy) →
        Interp.isEqual v w = false)
    ∧ (∀ (st : Interpreter) (fuel : Nat) (t : Token) (lv lw : LitVal),
        t.type = .EQUAL_EQUAL →
        Interp.evaluate (fuel + 2) (.Binary (.Literal lv) t (.Literal lw)) st =
          (.ok (.bool (Interp.isEqual (Interp.litToValue lv) (Interp.litToValue lw))), st)) := by
  refine ⟨rfl, ?_, fun q r => rfl, fun a b => rfl, fun b q => rfl, ?_, ?_⟩
  · intro v hv
    cases v <;> simp_all [pyType, Interp.isEqual, pyEq]
  · intro v w hvw hb hf
    cases v <;> cases w <;> simp_all [pyType, Interp.isEqual, pyEq]
  · intro st fuel t lv lw h
    obtain ⟨ty, lx, lit, ln⟩ := t
    have h' : ty = TokenType.EQUAL_EQUAL := h
    subst h'
    rfl

/-- C5 witness: the amended equality theorem applied at concrete inputs
    (nil vs a string, a string vs a number, and 1 == 1 evaluated). -/
theorem equality_follows_python_eq_witness :
    Interp.isEqual Value.nil (Value.str "") = false
    ∧ Interp.isEqual (Value.str "a") (Value.num 1) = false
    ∧ Interp.evaluate 2
        (.Binary (.Literal (.num 1)) (opTok .EQUAL_EQUAL "==") (.Literal (.num 1)))
        initialInterpreter =
      (.ok (.bool (Interp.isEqual (Value.num 1) (Value.num 1))), initialInterpreter) :=
  ⟨(equality_follows_python_eq.2.1 (Value.str "") (by decide)).1,
   equality_follows_python_eq.2.2.2.2.2.1 (Value.str "a") (Value.num 1)
     (by decide) (by decide) (by decide),
   equality_follows_python_eq.2.2.2.2.2.2 initialInterpreter 0
     (opTok .EQUAL_EQUAL "==") (.num 1) (.num 1) rfl⟩


/-- C6 counterexample: `+` on two booleans does not raise the claimed Type
    error — it falls through the same-type check into float() coercion and
    yields the number 2 — and `+` on two nils does not raise it either: it
    crashes with an uncaught Python TypeError from float(None). -/
theorem plus_booleans_add_nils_crash :
    Interp.evaluate 2
        (.Binary (.Literal (.bool true)) (opTok .PLUS "+") (.Literal (.bool true)))
        initialInterpreter = (.ok (Value.num 2), initialInterpreter)
    ∧ Interp.evaluate 2
        (.Binary (.Literal .pynone) (opTok .PLUS "+") (.Literal .pynone))
        initialInterpreter =
      (.error (.pyError "TypeError: float() argument"), initialInterpreter) := by
  refine ⟨?_, ?_⟩ <;> with_unfolding_all rfl

/-- C6 amended: `+` adds two numbers and concatenates two strings; operands
    of different Python types raise the EvaluationError "Both operands must
    have the same type"; same-typed operands that are neither numbers nor
    strings fall through to float() coercion, so two booleans add
    numerically while two nils crash with an uncaught TypeError. -/
theorem plus_follows_python_types (st : Interpreter) (fuel : Nat) (t : Token)
    (ht : t.type = .PLUS) :
    (∀ q r : Rat,
      Interp.evaluate (fuel + 2) (.Binary (.Literal (.num q)) t (.Literal (.num r))) st
        = (.ok (.num (q + r)), st))
    ∧ (∀ a b : String,
      Interp.evaluate (fuel + 2) (.Binary (.Literal (.str a)) t (.Literal (.str b))) st
        = (.ok (.str (a ++ b)), st))
    ∧ (∀ lv lw : LitVal, pyType (Interp.litToValue lv) ≠ pyType (Interp.litToValue lw) →
      Interp.evaluate (fuel + 2) (.Binary (.Literal lv) t (.Literal lw)) st
        = (.error (.evalError t "Both operands must have the same type"), st))
    ∧ (∀ x y : Bool,
      Interp.evaluate (fuel + 2) (.Binary (.Literal (.bool x)) t (.Literal (.bool y))) st
        = (.ok (.num ((if x then (1 : Rat) else 0) + (if y then (1 : Rat) else 0))), st))
    ∧ Interp.evaluate (fuel + 2) (.Binary (.Literal .pynone) t (.Literal .pynone)) st
        = (.error (.pyError "TypeError: float() argument"), st) := by
  obtain ⟨ty, lx, lit, ln⟩ := t
  have h' : ty = TokenType.PLUS := ht
  subst h'
  refine ⟨fun q r => rfl, fun a b => rfl, ?_, fun x y => rfl, rfl⟩
  intro lv lw hne
  cases lv <;> cases lw <;> first | exact absurd rfl hne | rfl

/-- C6 witness: the amended `+` theorem applied at concrete inputs
    (1 + "a" raises the same-type error; 1 + 2 adds). -/
theorem plus_follows_python_types_witness :
    Interp.evaluate 2
        (.Binary (.Literal (.num 1)) (opTok .PLUS "+") (.Literal (.str "a")))
        initialInterpreter =
      (.error (.evalError (opTok .PLUS "+") "Both operands must have the same type"),
       initialInterpreter)
    ∧ Interp.evaluate 2
        (.Binary (.Literal (.num 1)) (opTok .PLUS "+") (.Literal (.num 2)))
        initialInterpreter = (.ok (.num (1 + 2)), initialInterpreter) :=
  ⟨(plus_follows_python_types initialInterpreter 0 (opTok .PLUS "+") rfl).2.2.1
      (.num 1) (.str "a") (by decide),
   (plus_follows_python_types initialInterpreter 0 (opTok .PLUS "+") rfl).1 1 2⟩

/-- C7 counterexample: unary `-` applied to the digit string "3" does not
    raise the claimed Type error — float() coercion succeeds and yields
    -3 — and `<` on the digit strings "3" and "4" likewise succeeds,
    yielding true by numeric comparison of the coerced values. -/
theorem minus_string_succeeds :
    Interp.evaluate 2 (.Unary (opTok .MINUS "-") (.Literal (.str "3")))
        initialInterpreter = (.ok (Value.num (-3)), initialInterpreter)
    ∧ Interp.evaluate 2
        (.Binary (.Literal (.str "3")) (opTok .LESS "<") (.Literal (.str "4")))
        initialInterpreter = (.ok (Value.bool true), initialInterpreter) := by
  refine ⟨?_, ?_⟩ <;> with_unfolding_all rfl

/-- C7 amended: unary `-` and the comparison operators coerce their
    operands with Python float(): numbers, booleans and numeric strings
    succeed; a non-numeric string raises "A numeric value is required"
    (unary) or "Numeric operands required" (comparison); a nil operand
    crashes with an uncaught TypeError. -/
theorem minus_and_comparisons_coerce (st : Interpreter) (fuel : Nat)
    (tm tl : Token) (hm : tm.type = .MINUS) (hl : tl.type = .LESS) :
    (∀ q : Rat, Interp.evaluate (fuel + 2) (.Unary tm (.Literal (.num q))) st
        = (.ok (.num (-q)), st))
    ∧ (∀ b : Bool, Interp.evaluate (fuel + 2) (.Unary tm (.Literal (.bool b))) st
        = (.ok (.num (-(if b then (1 : Rat) else 0))), st))
    ∧ (∀ (a : String) (q : Rat), pyParseFloat a = some q →
        Interp.evaluate (fuel + 2) (.Unary tm (.Literal (.str a))) st
          = (.ok (.num (-q)), st))
    ∧ (∀ a : String, pyParseFloat a = none →
        Interp.evaluate (fuel + 2) (.Unary tm (.Literal (.str a))) st
          = (.error (.evalError tm "A numeric value is required"), st))
    ∧ (Interp.evaluate (fuel + 2) (.Unary tm (.Literal .pynone)) st
        = (.error (.pyError "TypeError: float() argument"), st))
    ∧ (∀ (a b : String) (x y : Rat), pyParseFloat a = some x → pyParseFloat b = some y →
        Interp.evaluate (fuel + 2) (.Binary (.Literal (.str a)) tl (.Literal (.str b))) st
          = (.ok (.bool (decide (x < y))), st))
    ∧ (∀ (b : Bool) (q : Rat),
        Interp.evaluate (fuel + 2) (.Binary (.Literal (.bool b)) tl (.Literal (.num q))) st
          = (.ok (.bool (decide ((if b then (1 : Rat) else 0) < q))), st))
    ∧ (∀ (a : String) (q : Rat), pyParseFloat a = none →
        Interp.evaluate (fuel + 2) (.Binary (.Literal (.str a)) tl (.Literal (.num q))) st
          = (.error (.evalError tl "Numeric operands required"), st))
    ∧ (∀ q : Rat,
        Interp.evaluate (fuel + 2) (.Binary (.Literal .pynone) tl (.Literal (.num q))) st
          = (.error (.pyError "TypeError: float() argument"), st)) := by
  obtain ⟨tym, lxm, litm, lnm⟩ := tm
  obtain ⟨tyl, lxl, litl, lnl⟩ := tl
  have hm' : tym = TokenType.MINUS := hm
  have hl' : tyl = TokenType.LESS := hl
  subst hm'
  subst hl'
  refine ⟨fun q => rfl, fun b => rfl, ?_, ?_, rfl, ?_, fun b q => rfl, ?_, fun q => rfl⟩
  · intro a q h
    simp only [Interp.evaluate, Interp.litToValue, pyFloat, instMonadIM]
    rw [h]
    rfl
  · intro a h
    simp only [Interp.evaluate, Interp.litToValue, pyFloat, instMonadIM]
    rw [h]
    rfl
  · intro a b x y ha hb
    simp only [Interp.evaluate, Interp.litToValue, pyFloat, instMonadIM]
    rw [ha, hb]
    rfl
  · intro a q h
    simp only [Interp.evaluate, Interp.litToValue, pyFloat, instMonadIM]
    rw [h]
    rfl

/-- C7 witness: the amended coercion theorem applied at concrete inputs
    (-"25" evaluates to -25; "abc" < 1 raises the numeric-operands
    error). -/
theorem minus_and_comparisons_coerce_witness :
    Interp.evaluate 2 (.Unary (opTok .MINUS "-") (.Literal (.str "25")))
        initialInterpreter = (.ok (.num (-25)), initialInterpreter)
    ∧ Interp.evaluate 2
        (.Binary (.Literal (.str "abc")) (opTok .LESS "<") (.Literal (.num 1)))
        initialInterpreter =
      (.error (.evalError (opTok .LESS "<") "Numeric operands required"),
       initialInterpreter) :=
  ⟨(minus_and_comparisons_coerce initialInterpreter 0 (opTok .MINUS "-")
      (opTok .LESS "<") rfl rfl).2.2.1 "25" 25 (by with_unfolding_all rfl),
   (minus_and_comparisons_coerce initialInterpreter 0 (opTok .MINUS "-")
      (opTok .LESS "<") rfl rfl).2.2.2.2.2.2.2.1 "abc" 1 (by with_unfolding_all rfl)⟩

def returnTok : Token :=
  { type := .RETURN, lexeme := "return", literal := .pynone, line := 1 }

/-- a class P whose init method is `init() { return 1; }`. -/
def classWithValuedInitReturn : Stmt :=
  .Class (identTok "P")
    [ .mk (identTok "init") [] [ .Return returnTok (some (.Literal (.num 1))) ] ]
    none

/-- C3 counterexample: resolving a class whose init method is
    `init() { return 1; }` produces no report at all — Resolver does not
    override visitClass (GenericVisitor's pass is used), FunctionType has
    no METHOD or INITIALIZER member, and so the claimed error "Cannot
    return a value from an initializer." is never reported. -/
theorem resolver_silent_on_initializer_return :
    Resolver.resolve 100 [classWithValuedInitReturn] = .ok () Resolver.initialRState := by
  with_unfolding_all rfl

/-- C3 amended: visitReturn reports "Cannot return from top-level code."
    whenever no function is being resolved (current_function = NOFUN);
    there is no initializer check — the resolver does not even descend
    into class bodies, and a valued return inside an init method resolves
    without any report. -/
theorem return_outside_function_reported (fuel : Nat) (s : RState) (keyword : Token)
    (value : Option Expr) (h : s.current_function = .NOFUN) :
    Resolver.resolveStmt (fuel + 1) (.Return keyword value) s =
      .rerr keyword "Cannot return from top-level code." s
    ∧ Resolver.resolve 100 [classWithValuedInitReturn] = .ok () Resolver.initialRState := by
  constructor
  · simp only [Resolver.resolveStmt, instMonadResolverM]
    rw [if_pos h]
    rfl
  · with_unfolding_all rfl

/-- C3 witness: the amended return-resolution theorem applied at the
    initial resolver state and a concrete valued return statement. -/
theorem return_outside_function_reported_witness :
    Resolver.resolveStmt 1 (.Return returnTok (some (.Literal (.num 1))))
        Resolver.initialRState =
      .rerr returnTok "Cannot return from top-level code." Resolver.initialRState
    ∧ Resolver.resolve 100 [classWithValuedInitReturn] = .ok () Resolver.initialRState :=
  return_outside_function_reported 0 Resolver.initialRState returnTok
    (some (.Literal (.num 1))) rfl

/-- C4 helper: `str_value.endswith('.0')` is true on any string with
    ".0" appended. -/
theorem endsWithDot0_append (s : String) : Interp.endsWithDot0 (s ++ ".0") = true := by
  simp [Interp.endsWithDot0, List.isSuffixOf_iff_suffix, String.toList, String.data_append]

theorem dropLast2_append (s : String) : Interp.dropLast2 (s ++ ".0") = s := by
  simp only [Interp.dropLast2, String.toList, String.data_append]
  have h : (String.data s ++ String.data ".0").length - 2 = s.data.length := by
    simp [List.length_append]
  rw [h, List.take_left s.data]

/-- C4 counterexample: printing the value nil writes the line "None" (the
    Python str() of None), not the "nil" the claim states. -/
theorem print_nil_writes_None :
    (Interp.executeStmt 2 (.Print (.Literal .pynone)) initialInterpreter).2.stdout = ["None"]
    ∧ ("None" : String) ≠ "nil" :=
  ⟨by with_unfolding_all rfl, by decide⟩

/-- C4 amended: a print statement writes str(value) with one trailing
    ".0" stripped — nil prints as "None", booleans as "True"/"False", a
    number whose value is integral (inside Python's positional-notation
    range) prints as its digits with no trailing ".0", and 3.5 prints as
    "3.5". -/
theorem print_formats_via_python_str (st : Interpreter) (fuel : Nat) :
    (Interp.executeStmt (fuel + 2) (.Print (.Literal .pynone)) st).2.stdout
        = st.stdout ++ ["None"]
    ∧ (∀ b : Bool, (Interp.executeStmt (fuel + 2) (.Print (.Literal (.bool b))) st).2.stdout
        = st.stdout ++ [if b then "True" else "False"])
    ∧ (∀ q : Rat, q.den = 1 → q.num.natAbs < 10 ^ 16 →
        (Interp.executeStmt (fuel + 2) (.Print (.Literal (.num q))) st).2.stdout
          = st.stdout ++ [toString q.num])
    ∧ (Interp.executeStmt (fuel + 2) (.Print (.Literal (.num (7 / 2)))) st).2.stdout
        = st.stdout ++ ["3.5"] := by
  refine ⟨by with_unfolding_all rfl, fun b => by cases b <;> with_unfolding_all rfl, ?_, by with_unfolding_all rfl⟩
  intro q h1 h2
  have hs : Interp.pyStr st.instances (Value.num q) = toString q.num ++ ".0" := by
    simp only [Interp.pyStr, pyFloatStr]
    rw [if_pos (And.intro h1 h2)]
  simp only [Interp.executeStmt, Interp.evaluate, Interp.litToValue, instMonadIM, getI,
    modifyI]
  rw [hs, endsWithDot0_append, dropLast2_append]
  rfl

/-- C4 witness: the amended print-format theorem applied to the integral
    number 17, whose digits are printed without ".0". -/
theorem print_formats_via_python_str_witness :
    (Interp.executeStmt 2 (.Print (.Literal (.num 17))) initialInterpreter).2.stdout
      = initialInterpreter.stdout ++ [toString (17 : Rat).num] :=
  (print_formats_via_python_str initialInterpreter 0).2.2.1 17
    (by with_unfolding_all rfl) (by with_unfolding_all decide)

end CrInPy
